import Mathlib

/-!
# Xsolla login subsystem: response handling and token store

A shallow embedding of `Source/XsollaLogin/Private/XsollaLoginSubsystem.cpp`.

* Engine strings (`FString`) are Lean strings; the few engine string
  operations the source calls are written out under `FString`.
* A JSON document is the tree the engine's reader produces (`FJsonValue`,
  `FJsonObject`); the reader itself, the HTTP status test, URL coding and
  the other engine services are fields of `Engine`, so every theorem holds
  for whatever the engine computes.
* The subsystem object is the record `UXsollaLoginSubsystem`; a member
  function takes the record and returns the new record together with the
  list of observable actions (`Call`) it performed, in order: delegate
  invocations and HTTP requests handed to the transport.
* The accessors of the token payload return `Except EFault`: `error` stands
  for a failed check of the engine, after which nothing is returned.
-/

namespace XsollaLogin

/-! ## Engine strings -/

namespace FString

/-- `FString::IsEmpty`. -/
def IsEmpty (s : String) : Bool := s.data.isEmpty

/-- `FString::operator==`: the engine compares strings ignoring the case of
the letters `A`..`Z`. -/
def Equals (a b : String) : Bool := a.data.map Char.toLower == b.data.map Char.toLower

/-- `FString::Contains` for a one-character pattern. The source only ever
searches for `?`, where the engine's case folding plays no role. -/
def Contains (s : String) (c : Char) : Bool := s.data.contains c

/-- `FString::Find` for a one-character pattern: the index of the first
occurrence, or `INDEX_NONE` (-1). -/
def Find (s : String) (c : Char) : Int :=
  if s.data.contains c then (s.data.indexOf c : Int) else -1

/-- `FString::RightChop(Count)`: the string without its first
`Clamp(Count, 0, Len)` characters. -/
def RightChop (s : String) (Count : Int) : String :=
  ⟨s.data.drop (max 0 (min Count (s.data.length : Int))).toNat⟩

/-- `FString::Replace` for one-character patterns: every occurrence of
`From` becomes `To`. -/
def Replace (s : String) (From To : Char) : String :=
  ⟨s.data.map fun c => if c = From then To else c⟩

end FString

/-! ## `UGameplayStatics::ParseOption` -/

/-- `UGameplayStatics::GrabOption`: when the options start with `?`, the
text up to the next `?` is the grabbed pair and the options are advanced to
that next `?` (or emptied). -/
def GrabOption (Options : List Char) : Option (List Char × List Char) :=
  match Options with
  | '?' :: rest => some (rest.takeWhile (· != '?'), rest.dropWhile (· != '?'))
  | _ => none

/-- `UGameplayStatics::GetKeyValue`: split a pair at its first `=`; a pair
without `=` is a key with an empty value. -/
def GetKeyValue (Pair : List Char) : List Char × List Char :=
  (Pair.takeWhile (· != '='), (Pair.dropWhile (· != '=')).drop 1)

/-- The loop of `UGameplayStatics::ParseOption`, at most `fuel` rounds. -/
def ParseOptionLoop : Nat → List Char → String → String
  | 0, _, _ => ""
  | fuel + 1, Options, Key =>
    match GrabOption Options with
    | none => ""
    | some (Pair, Options') =>
      let PairKey : String := ⟨(GetKeyValue Pair).1⟩
      let PairValue : String := ⟨(GetKeyValue Pair).2⟩
      if FString.Equals Key PairKey then PairValue
      else ParseOptionLoop fuel Options' Key

/-- `UGameplayStatics::ParseOption(Options, Key)`: the value of the first
`?`-introduced pair whose key equals `Key`, or the empty string. Every
round of the loop consumes at least one character, so the length of the
options bounds the number of rounds. -/
def ParseOption (Options Key : String) : String :=
  ParseOptionLoop Options.data.length Options.data Key

/-! ## JSON documents -/

/-- `EJson`: the type tag of a JSON value. -/
inductive EJson
  | None | Null | String | Number | Boolean | Array | Object
  deriving DecidableEq, Repr

/-- `FJsonValue`. A number is kept as the text `AsString` renders for it. -/
inductive FJsonValue
  | null
  | string (Value : String)
  | number (Text : String)
  | boolean (Value : Bool)
  | array (Items : List FJsonValue)
  | object (Values : List (String × FJsonValue))

/-- `FJsonObject`: its `Values` map, in insertion order. -/
abbrev FJsonObject := List (String × FJsonValue)

namespace FJsonValue

/-- `FJsonValue::Type`. -/
def Type_ : FJsonValue → EJson
  | null => EJson.Null
  | string _ => EJson.String
  | number _ => EJson.Number
  | boolean _ => EJson.Boolean
  | array _ => EJson.Array
  | object _ => EJson.Object

/-- `FJsonValue::AsString`: strings as they are, numbers and booleans
rendered, and the empty string (with an error in the log) for the rest. -/
def AsString : FJsonValue → String
  | string s => s
  | number t => t
  | boolean b => if b then "true" else "false"
  | _ => ""

/-- `FJsonValue::AsObject`: the object, or an empty one (with an error in
the log). -/
def AsObject : FJsonValue → FJsonObject
  | object vs => vs
  | _ => []

end FJsonValue

namespace FJsonObject

/-- `Values.Find`: the map is keyed by `FString`, so keys are matched with
`FString::operator==`. -/
def Find (o : FJsonObject) (FieldName : String) : Option FJsonValue :=
  (List.find? (fun kv => FString.Equals kv.1 FieldName) o).map Prod.snd

/-- `FJsonObject::HasTypedField<JsonType>`. -/
def HasTypedField (o : FJsonObject) (JsonType : EJson) (FieldName : String) : Bool :=
  match o.Find FieldName with
  | some v => v.Type_ == JsonType
  | none => false

/-- `FJsonObject::GetField<EJson::None>`: the field, or a null value (with a
warning in the log) when there is none. -/
def GetField (o : FJsonObject) (FieldName : String) : FJsonValue :=
  (o.Find FieldName).getD FJsonValue.null

/-- `FJsonObject::GetStringField`. -/
def GetStringField (o : FJsonObject) (FieldName : String) : String :=
  (o.GetField FieldName).AsString

/-- `FJsonObject::GetObjectField`. -/
def GetObjectField (o : FJsonObject) (FieldName : String) : FJsonObject :=
  (o.GetField FieldName).AsObject

/-- `FJsonObject::TryGetStringField`. -/
def TryGetStringField (o : FJsonObject) (FieldName : String) : Option String :=
  match o.Find FieldName with
  | some (FJsonValue.string s) => some s
  | some (FJsonValue.number t) => some t
  | some (FJsonValue.boolean b) => some (if b then "true" else "false")
  | _ => none

/-- `FJsonObject::SetField`: `Values.Add`, which overwrites the value of a
key already present and appends a new key otherwise. -/
def SetField (o : FJsonObject) (FieldName : String) (v : FJsonValue) : FJsonObject :=
  if (o.Find FieldName).isSome then
    o.map fun kv => if FString.Equals kv.1 FieldName then (kv.1, v) else kv
  else o ++ [(FieldName, v)]

/-- `FJsonObject::SetStringField`. -/
def SetStringField (o : FJsonObject) (FieldName Value : String) : FJsonObject :=
  o.SetField FieldName (FJsonValue.string Value)

/-- `FJsonObject::SetBoolField`. -/
def SetBoolField (o : FJsonObject) (FieldName : String) (Value : Bool) : FJsonObject :=
  o.SetField FieldName (FJsonValue.boolean Value)

end FJsonObject

/-! ## Data model -/

/-- Modelled from the spec: `FXsollaAuthToken` of `XsollaLoginTypes.h`, which
is not among the sources: the JWT, the refresh token and the verified
flag, all empty on construction. -/
structure FXsollaAuthToken where
  JWT : String := ""
  RefreshToken : String := ""
  bIsVerified : Bool := false
  deriving DecidableEq, Repr

/-- Modelled from the spec: `FXsollaLoginData` of `XsollaLoginTypes.h`, which
is not among the sources: the login record, empty on construction. -/
structure FXsollaLoginData where
  AuthToken : FXsollaAuthToken := {}
  Username : String := ""
  Password : String := ""
  bRememberMe : Bool := false
  deriving DecidableEq, Repr

/-- Modelled from the spec: `FXsollaUserAttribute` of `XsollaLoginTypes.h`,
which is not among the sources: a key, value and metadata tuple. -/
structure FXsollaUserAttribute where
  key : String
  permission : String
  value : String
  deriving DecidableEq, Repr

/-- `EUserDataStorage` of the plugin settings. -/
inductive EUserDataStorage
  | Xsolla | Custom
  deriving DecidableEq, Repr

/-- The fields of `UXsollaLoginSettings` the source reads. -/
structure UXsollaLoginSettings where
  ProjectID : String
  LoginID : String
  ClientID : String
  UseOAuth2 : Bool
  UserDataStorage : EUserDataStorage
  CallbackURL : String
  AccountLinkingURL : String
  PlatformAuthenticationURL : String

/-- What the subsystem takes from the engine and from the rest of the
plugin: every field is code outside `XsollaLoginSubsystem.cpp`. -/
structure Engine where
  /-- `EHttpResponseCodes::IsOk`: the HTTP statuses that count as success. -/
  IsOk : Int → Bool
  /-- `FJsonSerializer::Deserialize` into an object: `none` when the text is
  not JSON or its root is not an object. -/
  Deserialize : String → Option FJsonObject
  /-- `FJsonSerializer::Serialize`. -/
  Serialize : FJsonObject → String
  /-- `FJsonObjectConverter::JsonArrayStringToUStruct` for user attributes. -/
  JsonArrayStringToUStruct : String → Option (List FXsollaUserAttribute)
  /-- `FGenericPlatformHttp::UrlEncode`. -/
  UrlEncode : String → String
  /-- `FGenericPlatformHttp::UrlDecode`. -/
  UrlDecode : String → String
  /-- `FBase64::Decode`. -/
  Base64Decode : String → Option String
  /-- `FString::ToBool`, which `FJsonValueString::TryGetBool` answers with. -/
  ToBool : String → Bool
  /-- `FJsonValueNumber::TryGetBool`, whether the number differs from zero,
  as a function of the text that stands for the number. -/
  NumberToBool : String → Bool
  /-- `IOnlineSubsystem::IsEnabled(STEAM_SUBSYSTEM)`. -/
  IsSteamEnabled : Bool
  /-- `UXsollaLoginLibrary::GetStringCommandLineParam("xsolla-login-jwt")`. -/
  LauncherLoginJwt : String
  /-- `FXsollaLoginModule::Get().GetSettings()`. -/
  Settings : UXsollaLoginSettings
  ENGINE_VERSION_STRING : String
  XSOLLA_LOGIN_VERSION : String

/-- `FHttpResponsePtr`, when valid: the status and the content. -/
structure FHttpResponse where
  ResponseCode : Int
  Content : String
  deriving DecidableEq, Repr

/-- `EXsollaLoginRequestVerb`. -/
inductive EXsollaLoginRequestVerb
  | GET | POST | PUT | DELETE
  deriving DecidableEq, Repr

/-- A delegate handed in by the caller, known by an identifier. Delegates are
taken as bound: `ExecuteIfBound` is recorded as an invocation. -/
abbrev Delegate := Nat

/-- The completion handlers a request can be bound to. -/
inductive Completion
  | Default
  | UserLogin
  | UserLoginOAuth
  | TokenVerify
  | SocialAuthUrl
  | CrossAuth
  | UpdateUserAttributes
  | AccountLinkingCode
  | AuthConsoleAccountUser
  | RefreshTokenOAuth
  | SessionTicketOAuth
  deriving DecidableEq, Repr

/-- `IHttpRequest` as the source fills it in: URL, verb, headers, content,
and the completion handler bound with the two delegates of the caller. -/
structure FHttpRequest where
  URL : String := ""
  Verb : String := ""
  Headers : List (String × String) := []
  Content : String := ""
  OnComplete : Option (Completion × Delegate × Delegate) := none
  deriving DecidableEq, Repr

/-- What a success delegate receives: nothing (`FOnRequestSuccess`), the
login record (`FOnAuthUpdate`) or a string (`FOnSocialUrlReceived`,
`FOnCodeReceived`). -/
inductive Payload
  | None
  | LoginData (Data : FXsollaLoginData)
  | Text (Value : String)
  deriving DecidableEq, Repr

/-- An observable action of the subsystem. -/
inductive Call
  /-- `ErrorCallback.ExecuteIfBound(Code, Description)`. -/
  | Error (Callback : Delegate) (Code Description : String)
  /-- `SuccessCallback.ExecuteIfBound(...)`. -/
  | Success (Callback : Delegate) (Result : Payload)
  /-- `HttpRequest->ProcessRequest()`. -/
  | ProcessRequest (Request : FHttpRequest)
  deriving DecidableEq, Repr

/-- The mutable members of `UXsollaLoginSubsystem`, with the save game slot
behind `UXsollaLoginSave`. -/
structure UXsollaLoginSubsystem where
  ProjectID : String := ""
  LoginID : String := ""
  LoginData : FXsollaLoginData := {}
  UserAttributes : List FXsollaUserAttribute := []
  PendingSocialAuthenticationUrl : String := ""
  /-- Modelled from the spec: the record kept by `UXsollaLoginSave`, whose
  source is not among the sources: one slot, `Save` overwrites it and `Load`
  returns what was saved last. -/
  SaveSlot : FXsollaLoginData := {}
  deriving DecidableEq, Repr

namespace UXsollaLoginSave

/-- Modelled from the spec: `UXsollaLoginSave::Save`, which is not among the
sources: the record replaces the one in the slot. -/
def Save (s : UXsollaLoginSubsystem) (InLoginData : FXsollaLoginData) :
    UXsollaLoginSubsystem :=
  { s with SaveSlot := InLoginData }

/-- Modelled from the spec: `UXsollaLoginSave::Load`, which is not among the
sources: the record in the slot. -/
def Load (s : UXsollaLoginSubsystem) : FXsollaLoginData := s.SaveSlot

end UXsollaLoginSave

namespace UXsollaLoginSubsystem

def RegistrationEndpoint : String := "https://login.xsolla.com/api/user"
def LoginEndpoint : String := "https://login.xsolla.com/api/login"
def LoginSocialEndpoint : String := "https://login.xsolla.com/api/social"
def ResetPasswordEndpoint : String := "https://login.xsolla.com/api/password/reset/request"
def ProxyRegistrationEndpoint : String := "https://login.xsolla.com/api/proxy/registration"
def ProxyLoginEndpoint : String := "https://login.xsolla.com/api/proxy/login"
def ProxyResetPasswordEndpoint : String := "https://login.xsolla.com/api/proxy/password/reset"
def ValidateTokenEndpoint : String := "https://login.xsolla.com/api/users/me"
def UserAttributesEndpoint : String := "https://login.xsolla.com/api/attributes"
def CrossAuthEndpoint : String := "https://livedemo.xsolla.com/sdk/token"
def AccountLinkingCodeEndpoint : String := "https://login.xsolla.com/api/users/account/code"
def LoginEndpointOAuth : String := "https://login.xsolla.com/api/oauth2"
def BlankRedirectEndpoint : String := "https://login.xsolla.com/api/blank"

/-- `UXsollaLoginSubsystem::LoadSavedData`. -/
def LoadSavedData (s : UXsollaLoginSubsystem) : UXsollaLoginSubsystem :=
  { s with LoginData := UXsollaLoginSave.Load s }

/-- `UXsollaLoginSubsystem::SaveData`. -/
def SaveData (s : UXsollaLoginSubsystem) : UXsollaLoginSubsystem :=
  if s.LoginData.bRememberMe then
    UXsollaLoginSave.Save s s.LoginData
  else
    UXsollaLoginSave.Save s {}

/-! ## Request builder -/

/-- `IHttpRequest::SetHeader`: the headers are a map keyed by `FString`, so a
header already present is overwritten and a new one is appended. -/
def SetHeader (r : FHttpRequest) (HeaderName HeaderValue : String) : FHttpRequest :=
  if r.Headers.any (fun h => FString.Equals h.1 HeaderName) then
    { r with Headers := r.Headers.map fun h =>
        if FString.Equals h.1 HeaderName then (h.1, HeaderValue) else h }
  else { r with Headers := r.Headers ++ [(HeaderName, HeaderValue)] }

/-- `UXsollaLoginSubsystem::CreateHttpRequest`. The warning logged for a GET
request with content is not an observable action. The default arguments
are those the calls in the source rely on (`CreateHttpRequest(Url)` for a
GET request without content and without token); the declaration that
states them is in `XsollaLoginSubsystem.h`, which is not among the
sources. -/
def CreateHttpRequest (E : Engine) (Url : String)
    (Verb : EXsollaLoginRequestVerb := EXsollaLoginRequestVerb.GET)
    (Content : String := "") (AuthToken : String := "") : FHttpRequest :=
  let HttpRequest : FHttpRequest := {}
  let MetaUrl : String :=
    (if FString.Contains Url '?' then "&" else "?") ++ "engine=ue4&engine_v="
      ++ E.ENGINE_VERSION_STRING ++ "&sdk=login&sdk_v=" ++ E.XSOLLA_LOGIN_VERSION
  let HttpRequest := { HttpRequest with URL := Url ++ MetaUrl }
  let HttpRequest :=
    match Verb with
    | EXsollaLoginRequestVerb.GET => { HttpRequest with Verb := "GET" }
    | EXsollaLoginRequestVerb.POST => { HttpRequest with Verb := "POST" }
    | EXsollaLoginRequestVerb.PUT => { HttpRequest with Verb := "PUT" }
    | EXsollaLoginRequestVerb.DELETE => { HttpRequest with Verb := "DELETE" }
  let HttpRequest :=
    if !FString.IsEmpty Content then
      { SetHeader HttpRequest "Content-Type" "application/json" with Content := Content }
    else HttpRequest
  let HttpRequest :=
    if !FString.IsEmpty AuthToken then
      SetHeader HttpRequest "Authorization" ("Bearer " ++ AuthToken)
    else HttpRequest
  let HttpRequest := SetHeader HttpRequest "X-ENGINE" "UE4"
  let HttpRequest := SetHeader HttpRequest "X-ENGINE-V" E.ENGINE_VERSION_STRING
  let HttpRequest := SetHeader HttpRequest "X-SDK" "LOGIN"
  let HttpRequest := SetHeader HttpRequest "X-SDK-V" E.XSOLLA_LOGIN_VERSION
  HttpRequest

/-- `UXsollaLoginSubsystem::EncodeFormData`. `ParamIndex` is a `uint16` that
is incremented for every pair, skipped or not. -/
def EncodeFormData (E : Engine) (FormDataJson : FJsonObject) : String :=
  (FormDataJson.foldl
    (fun (st : String × Nat) (kv : String × FJsonValue) =>
      let Key := kv.1
      let Value := kv.2.AsString
      let Encoded :=
        if !FString.IsEmpty Key && !FString.IsEmpty Value then
          st.1 ++ (if st.2 = 0 then "" else "&") ++ (E.UrlEncode Key ++ "=" ++ E.UrlEncode Value)
        else st.1
      (Encoded, (st.2 + 1) % 65536))
    ("", 0)).1

/-! ## Response classifier -/

/-- `HttpResponse->GetContentAsString()`. The handlers call it only after
`HandleRequestError` has returned false, which it does for a valid response
only; the empty string stands for the dereference that never happens. -/
def GetContentAsString (HttpResponse : Option FHttpResponse) : String :=
  match HttpResponse with
  | some Response => Response.Content
  | none => ""

/-- `UXsollaLoginSubsystem::HandleRequestError`: the returned flag and the
actions performed. For a status that is not ok `ErrorStr` is first set to
`Invalid response. code=%d error=%s`, and every branch that follows
overwrites it, so that text never leaves the function. -/
def HandleRequestError (E : Engine) (HttpResponse : Option FHttpResponse) (bSucceeded : Bool)
    (ErrorCallback : Delegate) : Bool × List Call :=
  let ErrorStr : String := ""
  let ErrorCode : String := "204"
  let Result : String × String :=
    match bSucceeded, HttpResponse with
    | true, some Response =>
      if !E.IsOk Response.ResponseCode then
        let ErrorCode := toString Response.ResponseCode
        match E.Deserialize Response.Content with
        | some JsonObject =>
          if JsonObject.HasTypedField EJson.Object "error" then
            let ErrorObject := JsonObject.GetObjectField "error"
            (ErrorObject.GetStringField "code", ErrorObject.GetStringField "description")
          else
            (ErrorCode, "Can't deserialize error json: no field '" ++ "error" ++ "' found")
        | none => (ErrorCode, "Can't deserialize error json")
      else (ErrorCode, ErrorStr)
    | _, _ => (ErrorCode, "No response")
  if !FString.IsEmpty Result.2 then
    (true, [Call.Error ErrorCallback Result.1 Result.2])
  else (false, [])

/-! ## Completion handlers

The `HttpRequest` argument of the handlers is never read and is left out. -/

/-- The error text of a response that lacks the field a handler needs. -/
def NoFieldFound (FieldName : String) : String :=
  "Can't process response json: no field '" ++ FieldName ++ "' found"

/-- The error text of a response that is not a JSON object: the format
string has no placeholder, so the response text given to `Printf` is not
part of it. -/
def CantDeserialize : String := "Can't deserialize response json: "

/-- The record with a new JWT. -/
def SetJWT (s : UXsollaLoginSubsystem) (Token : String) : UXsollaLoginSubsystem :=
  { s with LoginData := { s.LoginData with AuthToken := { s.LoginData.AuthToken with JWT := Token } } }

/-- `UXsollaLoginSubsystem::Default_HttpRequestComplete`. -/
def Default_HttpRequestComplete (E : Engine) (s : UXsollaLoginSubsystem)
    (HttpResponse : Option FHttpResponse) (bSucceeded : Bool)
    (SuccessCallback ErrorCallback : Delegate) : UXsollaLoginSubsystem × List Call :=
  match HandleRequestError E HttpResponse bSucceeded ErrorCallback with
  | (true, Calls) => (s, Calls)
  | (false, Calls) => (s, Calls ++ [Call.Success SuccessCallback Payload.None])

/-- `UXsollaLoginSubsystem::UserLogin_HttpRequestComplete`. -/
def UserLogin_HttpRequestComplete (E : Engine) (s : UXsollaLoginSubsystem)
    (HttpResponse : Option FHttpResponse) (bSucceeded : Bool)
    (SuccessCallback ErrorCallback : Delegate) : UXsollaLoginSubsystem × List Call :=
  match HandleRequestError E HttpResponse bSucceeded ErrorCallback with
  | (true, Calls) => (s, Calls)
  | (false, Calls) =>
    let ResponseStr := GetContentAsString HttpResponse
    match E.Deserialize ResponseStr with
    | some JsonObject =>
      let LoginUrlFieldName := "login_url"
      if JsonObject.HasTypedField EJson.String LoginUrlFieldName then
        let LoginUrl := JsonObject.GetStringField LoginUrlFieldName
        let UrlOptions :=
          FString.Replace (FString.RightChop LoginUrl (FString.Find LoginUrl '?')) '&' '?'
        let s := SetJWT s (ParseOption UrlOptions "token")
        let s := SaveData s
        (s, Calls ++ [Call.Success SuccessCallback (Payload.LoginData s.LoginData)])
      else
        (s, Calls ++ [Call.Error ErrorCallback "204" (NoFieldFound LoginUrlFieldName)])
    | none => (s, Calls ++ [Call.Error ErrorCallback "204" CantDeserialize])

/-- `UXsollaLoginSubsystem::HandleOAuthTokenRequest`. -/
def HandleOAuthTokenRequest (E : Engine) (s : UXsollaLoginSubsystem)
    (HttpResponse : Option FHttpResponse) (bSucceeded : Bool)
    (ErrorCallback SuccessCallback : Delegate) : UXsollaLoginSubsystem × List Call :=
  match HandleRequestError E HttpResponse bSucceeded ErrorCallback with
  | (true, Calls) => (s, Calls)
  | (false, Calls) =>
    let ResponseStr := GetContentAsString HttpResponse
    match E.Deserialize ResponseStr with
    | some JsonObject =>
      let AccessTokenFieldName := "access_token"
      if JsonObject.HasTypedField EJson.String AccessTokenFieldName then
        let s := SetJWT s (JsonObject.GetStringField AccessTokenFieldName)
        let s := { s with LoginData := { s.LoginData with AuthToken :=
          { s.LoginData.AuthToken with RefreshToken := JsonObject.GetStringField "refresh_token" } } }
        let s := SaveData s
        (s, Calls ++ [Call.Success SuccessCallback (Payload.LoginData s.LoginData)])
      else
        (s, Calls ++ [Call.Error ErrorCallback "204" (NoFieldFound AccessTokenFieldName)])
    | none => (s, Calls ++ [Call.Error ErrorCallback "204" CantDeserialize])

/-- `UXsollaLoginSubsystem::UserLoginOAuth_HttpRequestComplete`. -/
def UserLoginOAuth_HttpRequestComplete (E : Engine) (s : UXsollaLoginSubsystem)
    (HttpResponse : Option FHttpResponse) (bSucceeded : Bool)
    (SuccessCallback ErrorCallback : Delegate) : UXsollaLoginSubsystem × List Call :=
  HandleOAuthTokenRequest E s HttpResponse bSucceeded ErrorCallback SuccessCallback

/-- `UXsollaLoginSubsystem::RefreshTokenOAuth_HttpRequestComplete`. -/
def RefreshTokenOAuth_HttpRequestComplete (E : Engine) (s : UXsollaLoginSubsystem)
    (HttpResponse : Option FHttpResponse) (bSucceeded : Bool)
    (SuccessCallback ErrorCallback : Delegate) : UXsollaLoginSubsystem × List Call :=
  HandleOAuthTokenRequest E s HttpResponse bSucceeded ErrorCallback SuccessCallback

/-- `UXsollaLoginSubsystem::TokenVerify_HttpRequestComplete`. -/
def TokenVerify_HttpRequestComplete (E : Engine) (s : UXsollaLoginSubsystem)
    (HttpResponse : Option FHttpResponse) (bSucceeded : Bool)
    (SuccessCallback ErrorCallback : Delegate) : UXsollaLoginSubsystem × List Call :=
  match HandleRequestError E HttpResponse bSucceeded ErrorCallback with
  | (true, Calls) => (s, Calls)
  | (false, Calls) =>
    let s := { s with LoginData := { s.LoginData with AuthToken :=
      { s.LoginData.AuthToken with bIsVerified := true } } }
    let s := SaveData s
    (s, Calls ++ [Call.Success SuccessCallback (Payload.LoginData s.LoginData)])

/-- `UXsollaLoginSubsystem::SocialAuthUrl_HttpRequestComplete`. -/
def SocialAuthUrl_HttpRequestComplete (E : Engine) (s : UXsollaLoginSubsystem)
    (HttpResponse : Option FHttpResponse) (bSucceeded : Bool)
    (SuccessCallback ErrorCallback : Delegate) : UXsollaLoginSubsystem × List Call :=
  match HandleRequestError E HttpResponse bSucceeded ErrorCallback with
  | (true, Calls) => (s, Calls)
  | (false, Calls) =>
    let ResponseStr := GetContentAsString HttpResponse
    match E.Deserialize ResponseStr with
    | some JsonObject =>
      let SocialUrlFieldName := "url"
      if JsonObject.HasTypedField EJson.String SocialUrlFieldName then
        let SocialnUrl := JsonObject.GetStringField SocialUrlFieldName
        (s, Calls ++ [Call.Success SuccessCallback (Payload.Text SocialnUrl)])
      else
        (s, Calls ++ [Call.Error ErrorCallback "204" (NoFieldFound SocialUrlFieldName)])
    | none => (s, Calls ++ [Call.Error ErrorCallback "204" CantDeserialize])

/-- `UXsollaLoginSubsystem::CrossAuth_HttpRequestComplete`. -/
def CrossAuth_HttpRequestComplete (E : Engine) (s : UXsollaLoginSubsystem)
    (HttpResponse : Option FHttpResponse) (bSucceeded : Bool)
    (SuccessCallback ErrorCallback : Delegate) : UXsollaLoginSubsystem × List Call :=
  match HandleRequestError E HttpResponse bSucceeded ErrorCallback with
  | (true, Calls) => (s, Calls)
  | (false, Calls) =>
    let ResponseStr := GetContentAsString HttpResponse
    match E.Deserialize ResponseStr with
    | some JsonObject =>
      let TokenFieldName := "token"
      if JsonObject.HasTypedField EJson.String TokenFieldName then
        let Token := JsonObject.GetStringField TokenFieldName
        let s := SetJWT s Token
        let s := SaveData s
        (s, Calls ++ [Call.Success SuccessCallback (Payload.LoginData s.LoginData)])
      else
        (s, Calls ++ [Call.Error ErrorCallback "204" (NoFieldFound TokenFieldName)])
    | none => (s, Calls ++ [Call.Error ErrorCallback "204" CantDeserialize])

/-- `UXsollaLoginSubsystem::UpdateUserAttributes_HttpRequestComplete`. -/
def UpdateUserAttributes_HttpRequestComplete (E : Engine) (s : UXsollaLoginSubsystem)
    (HttpResponse : Option FHttpResponse) (bSucceeded : Bool)
    (SuccessCallback ErrorCallback : Delegate) : UXsollaLoginSubsystem × List Call :=
  match HandleRequestError E HttpResponse bSucceeded ErrorCallback with
  | (true, Calls) => (s, Calls)
  | (false, Calls) =>
    let ResponseStr := GetContentAsString HttpResponse
    match E.JsonArrayStringToUStruct ResponseStr with
    | some userAttributesData =>
      ({ s with UserAttributes := userAttributesData },
        Calls ++ [Call.Success SuccessCallback Payload.None])
    | none => (s, Calls ++ [Call.Error ErrorCallback "204" CantDeserialize])

/-- `UXsollaLoginSubsystem::AccountLinkingCode_HttpRequestComplete`. -/
def AccountLinkingCode_HttpRequestComplete (E : Engine) (s : UXsollaLoginSubsystem)
    (HttpResponse : Option FHttpResponse) (bSucceeded : Bool)
    (SuccessCallback ErrorCallback : Delegate) : UXsollaLoginSubsystem × List Call :=
  match HandleRequestError E HttpResponse bSucceeded ErrorCallback with
  | (true, Calls) => (s, Calls)
  | (false, Calls) =>
    let ResponseStr := GetContentAsString HttpResponse
    match E.Deserialize ResponseStr with
    | some JsonObject =>
      let AccountLinkingCode := "code"
      if JsonObject.HasTypedField EJson.String AccountLinkingCode then
        let Code := JsonObject.GetStringField AccountLinkingCode
        (s, Calls ++ [Call.Success SuccessCallback (Payload.Text Code)])
      else
        (s, Calls ++ [Call.Error ErrorCallback "204" (NoFieldFound AccountLinkingCode)])
    | none => (s, Calls ++ [Call.Error ErrorCallback "204" CantDeserialize])

/-- `UXsollaLoginSubsystem::AuthConsoleAccountUser_HttpRequestComplete`. -/
def AuthConsoleAccountUser_HttpRequestComplete (E : Engine) (s : UXsollaLoginSubsystem)
    (HttpResponse : Option FHttpResponse) (bSucceeded : Bool)
    (SuccessCallback ErrorCallback : Delegate) : UXsollaLoginSubsystem × List Call :=
  match HandleRequestError E HttpResponse bSucceeded ErrorCallback with
  | (true, Calls) => (s, Calls)
  | (false, Calls) =>
    let ResponseStr := GetContentAsString HttpResponse
    match E.Deserialize ResponseStr with
    | some JsonObject =>
      let TokenFieldName := "token"
      if JsonObject.HasTypedField EJson.String TokenFieldName then
        let Token := JsonObject.GetStringField TokenFieldName
        let s := SetJWT s Token
        let s := SaveData s
        (s, Calls ++ [Call.Success SuccessCallback (Payload.LoginData s.LoginData)])
      else
        (s, Calls ++ [Call.Error ErrorCallback "204" (NoFieldFound TokenFieldName)])
    | none => (s, Calls ++ [Call.Error ErrorCallback "204" CantDeserialize])

/-- The request of `UXsollaLoginSubsystem::ExchangeAuthenticationCodeToToken`.
The JSON text the source serializes into `PostContent` is never used: the
content is the form encoding of the payload. -/
def ExchangeAuthenticationCodeToTokenRequest (E : Engine) (AuthenticationCode : String)
    (SuccessCallback ErrorCallback : Delegate) : FHttpRequest :=
  let RequestDataJson : FJsonObject := []
  let RequestDataJson := RequestDataJson.SetStringField "client_id" E.Settings.ClientID
  let RequestDataJson := RequestDataJson.SetStringField "grant_type" "authorization_code"
  let RequestDataJson := RequestDataJson.SetStringField "code" AuthenticationCode
  let RequestDataJson := RequestDataJson.SetStringField "redirect_uri" BlankRedirectEndpoint
  let Url := LoginEndpointOAuth ++ "/token"
  let HttpRequest := CreateHttpRequest E Url EXsollaLoginRequestVerb.POST
  let HttpRequest := SetHeader HttpRequest "Content-Type" "application/x-www-form-urlencoded"
  let HttpRequest := { HttpRequest with Content := EncodeFormData E RequestDataJson }
  { HttpRequest with
    OnComplete := some (Completion.RefreshTokenOAuth, SuccessCallback, ErrorCallback) }

/-- `UXsollaLoginSubsystem::ExchangeAuthenticationCodeToToken`. -/
def ExchangeAuthenticationCodeToToken (E : Engine) (s : UXsollaLoginSubsystem)
    (AuthenticationCode : String) (SuccessCallback ErrorCallback : Delegate) :
    UXsollaLoginSubsystem × List Call :=
  (s, [Call.ProcessRequest
    (ExchangeAuthenticationCodeToTokenRequest E AuthenticationCode SuccessCallback ErrorCallback)])

/-- `UXsollaLoginSubsystem::SessionTicketOAuth_HttpRequestComplete`. -/
def SessionTicketOAuth_HttpRequestComplete (E : Engine) (s : UXsollaLoginSubsystem)
    (HttpResponse : Option FHttpResponse) (bSucceeded : Bool)
    (SuccessCallback ErrorCallback : Delegate) : UXsollaLoginSubsystem × List Call :=
  match HandleRequestError E HttpResponse bSucceeded ErrorCallback with
  | (true, Calls) => (s, Calls)
  | (false, Calls) =>
    let ResponseStr := GetContentAsString HttpResponse
    match E.Deserialize ResponseStr with
    | some JsonObject =>
      let LoginUrlFieldName := "login_url"
      if JsonObject.HasTypedField EJson.String LoginUrlFieldName then
        let LoginUrlRaw := JsonObject.GetStringField LoginUrlFieldName
        let LoginUrl := E.UrlDecode LoginUrlRaw
        let UrlOptions :=
          FString.Replace (FString.RightChop LoginUrl (FString.Find LoginUrl '?')) '&' '?'
        let Code := ParseOption UrlOptions "code"
        let Next := ExchangeAuthenticationCodeToToken E s Code SuccessCallback ErrorCallback
        (Next.1, Calls ++ Next.2)
      else
        (s, Calls ++ [Call.Error ErrorCallback "204" (NoFieldFound LoginUrlFieldName)])
    | none => (s, Calls ++ [Call.Error ErrorCallback "204" CantDeserialize])

/-- The handler bound to a request by `BindUObject`, run by the transport
when the request completes. -/
def Complete (E : Engine) (s : UXsollaLoginSubsystem) (h : Completion)
    (HttpResponse : Option FHttpResponse) (bSucceeded : Bool)
    (SuccessCallback ErrorCallback : Delegate) : UXsollaLoginSubsystem × List Call :=
  match h with
  | Completion.Default =>
    Default_HttpRequestComplete E s HttpResponse bSucceeded SuccessCallback ErrorCallback
  | Completion.UserLogin =>
    UserLogin_HttpRequestComplete E s HttpResponse bSucceeded SuccessCallback ErrorCallback
  | Completion.UserLoginOAuth =>
    UserLoginOAuth_HttpRequestComplete E s HttpResponse bSucceeded SuccessCallback ErrorCallback
  | Completion.TokenVerify =>
    TokenVerify_HttpRequestComplete E s HttpResponse bSucceeded SuccessCallback ErrorCallback
  | Completion.SocialAuthUrl =>
    SocialAuthUrl_HttpRequestComplete E s HttpResponse bSucceeded SuccessCallback ErrorCallback
  | Completion.CrossAuth =>
    CrossAuth_HttpRequestComplete E s HttpResponse bSucceeded SuccessCallback ErrorCallback
  | Completion.UpdateUserAttributes =>
    UpdateUserAttributes_HttpRequestComplete E s HttpResponse bSucceeded SuccessCallback
      ErrorCallback
  | Completion.AccountLinkingCode =>
    AccountLinkingCode_HttpRequestComplete E s HttpResponse bSucceeded SuccessCallback
      ErrorCallback
  | Completion.AuthConsoleAccountUser =>
    AuthConsoleAccountUser_HttpRequestComplete E s HttpResponse bSucceeded SuccessCallback
      ErrorCallback
  | Completion.RefreshTokenOAuth =>
    RefreshTokenOAuth_HttpRequestComplete E s HttpResponse bSucceeded SuccessCallback
      ErrorCallback
  | Completion.SessionTicketOAuth =>
    SessionTicketOAuth_HttpRequestComplete E s HttpResponse bSucceeded SuccessCallback
      ErrorCallback

/-! ## Public operations -/

/-- A request bound to its completion handler and handed to the transport. -/
def Dispatch (HttpRequest : FHttpRequest) (h : Completion)
    (SuccessCallback ErrorCallback : Delegate) : Call :=
  Call.ProcessRequest { HttpRequest with OnComplete := some (h, SuccessCallback, ErrorCallback) }

/-- `UXsollaLoginSubsystem::RegistrateUserJWT`. -/
def RegistrateUserJWT (E : Engine) (s : UXsollaLoginSubsystem)
    (Username Password Email : String) (SuccessCallback ErrorCallback : Delegate) :
    UXsollaLoginSubsystem × List Call :=
  let RequestDataJson : FJsonObject := []
  let RequestDataJson := RequestDataJson.SetStringField "username" Username
  let RequestDataJson := RequestDataJson.SetStringField "password" Password
  let RequestDataJson := RequestDataJson.SetStringField "email" Email
  let PostContent := E.Serialize RequestDataJson
  let Endpoint :=
    if E.Settings.UserDataStorage = EUserDataStorage.Xsolla then RegistrationEndpoint
    else ProxyRegistrationEndpoint
  let Url := Endpoint ++ "?projectId=" ++ s.LoginID ++ "&login_url="
    ++ E.UrlEncode E.Settings.CallbackURL
  let HttpRequest := CreateHttpRequest E Url EXsollaLoginRequestVerb.POST PostContent
  (s, [Dispatch HttpRequest Completion.Default SuccessCallback ErrorCallback])

/-- `UXsollaLoginSubsystem::RegistrateUserOAuth`. -/
def RegistrateUserOAuth (E : Engine) (s : UXsollaLoginSubsystem)
    (Username Password Email State : String) (SuccessCallback ErrorCallback : Delegate) :
    UXsollaLoginSubsystem × List Call :=
  let RequestDataJson : FJsonObject := []
  let RequestDataJson := RequestDataJson.SetStringField "username" Username
  let RequestDataJson := RequestDataJson.SetStringField "password" Password
  let RequestDataJson := RequestDataJson.SetStringField "email" Email
  let PostContent := E.Serialize RequestDataJson
  let Url := LoginEndpointOAuth ++ "/user?response_type=code&client_id=" ++ E.Settings.ClientID
    ++ "&state=" ++ State ++ "&redirect_uri=" ++ BlankRedirectEndpoint
  let HttpRequest := CreateHttpRequest E Url EXsollaLoginRequestVerb.POST PostContent
  (s, [Dispatch HttpRequest Completion.Default SuccessCallback ErrorCallback])

/-- `UXsollaLoginSubsystem::RegistrateUser`. -/
def RegistrateUser (E : Engine) (s : UXsollaLoginSubsystem)
    (Username Password Email State : String) (SuccessCallback ErrorCallback : Delegate) :
    UXsollaLoginSubsystem × List Call :=
  if E.IsSteamEnabled then
    (s, [Call.Error ErrorCallback "Registration failed"
      "User registration should be handled via Steam"])
  else if E.Settings.UseOAuth2 then
    RegistrateUserOAuth E s Username Password Email State SuccessCallback ErrorCallback
  else
    RegistrateUserJWT E s Username Password Email SuccessCallback ErrorCallback

/-- `UXsollaLoginSubsystem::AuthenticateUserJWT`. -/
def AuthenticateUserJWT (E : Engine) (s : UXsollaLoginSubsystem)
    (Username Password : String) (bRememberMe : Bool)
    (SuccessCallback ErrorCallback : Delegate) : UXsollaLoginSubsystem × List Call :=
  let RequestDataJson : FJsonObject := []
  let RequestDataJson := RequestDataJson.SetStringField "username" Username
  let RequestDataJson := RequestDataJson.SetStringField "password" Password
  let RequestDataJson := RequestDataJson.SetBoolField "remember_me" bRememberMe
  let PostContent := E.Serialize RequestDataJson
  let Endpoint :=
    if E.Settings.UserDataStorage = EUserDataStorage.Xsolla then LoginEndpoint
    else ProxyLoginEndpoint
  let Url := Endpoint ++ "?projectId=" ++ s.LoginID ++ "&login_url="
    ++ E.UrlEncode E.Settings.CallbackURL
  let HttpRequest := CreateHttpRequest E Url EXsollaLoginRequestVerb.POST PostContent
  (s, [Dispatch HttpRequest Completion.UserLogin SuccessCallback ErrorCallback])

/-- `UXsollaLoginSubsystem::AuthenticateUserOAuth`. -/
def AuthenticateUserOAuth (E : Engine) (s : UXsollaLoginSubsystem)
    (Username Password : String) (SuccessCallback ErrorCallback : Delegate) :
    UXsollaLoginSubsystem × List Call :=
  let RequestDataJson : FJsonObject := []
  let RequestDataJson := RequestDataJson.SetStringField "username" Username
  let RequestDataJson := RequestDataJson.SetStringField "password" Password
  let PostContent := E.Serialize RequestDataJson
  let Url := LoginEndpointOAuth ++ "/login/token?client_id=" ++ E.Settings.ClientID
    ++ "&scope=offline"
  let HttpRequest := CreateHttpRequest E Url EXsollaLoginRequestVerb.POST PostContent
  (s, [Dispatch HttpRequest Completion.UserLoginOAuth SuccessCallback ErrorCallback])

/-- `UXsollaLoginSubsystem::AuthenticateUser`. -/
def AuthenticateUser (E : Engine) (s : UXsollaLoginSubsystem)
    (Username Password : String) (SuccessCallback ErrorCallback : Delegate)
    (bRememberMe : Bool) : UXsollaLoginSubsystem × List Call :=
  if E.IsSteamEnabled then
    (s, [Call.Error ErrorCallback "Authentication failed"
      "User authentication should be handled via Steam"])
  else
    let s := { s with LoginData := {} }
    let s := { s with LoginData := { s.LoginData with Username := Username } }
    let s := { s with LoginData := { s.LoginData with Password := Password } }
    let s := { s with LoginData := { s.LoginData with bRememberMe := bRememberMe } }
    let s := SaveData s
    if E.Settings.UseOAuth2 then
      AuthenticateUserOAuth E s Username Password SuccessCallback ErrorCallback
    else
      AuthenticateUserJWT E s Username Password bRememberMe SuccessCallback ErrorCallback

/-- `UXsollaLoginSubsystem::ResetUserPassword`. -/
def ResetUserPassword (E : Engine) (s : UXsollaLoginSubsystem) (User : String)
    (SuccessCallback ErrorCallback : Delegate) : UXsollaLoginSubsystem × List Call :=
  if E.IsSteamEnabled then
    (s, [Call.Error ErrorCallback "Password reset failed"
      "User password reset should be handled via Steam"])
  else
    let RequestDataJson : FJsonObject := []
    let RequestDataJson := RequestDataJson.SetStringField
      (if E.Settings.UserDataStorage = EUserDataStorage.Xsolla then "username" else "email") User
    let PostContent := E.Serialize RequestDataJson
    let Endpoint :=
      if E.Settings.UserDataStorage = EUserDataStorage.Xsolla then ResetPasswordEndpoint
      else ProxyResetPasswordEndpoint
    let Url := Endpoint ++ "?projectId=" ++ s.LoginID ++ "&login_url="
      ++ E.UrlEncode E.Settings.CallbackURL
    let HttpRequest := CreateHttpRequest E Url EXsollaLoginRequestVerb.POST PostContent
    (s, [Dispatch HttpRequest Completion.Default SuccessCallback ErrorCallback])

/-! ## Token store operations -/

/-- `UXsollaLoginSubsystem::Initialize(InProjectId, InLoginId)`. -/
def Initialize (E : Engine) (s : UXsollaLoginSubsystem) (InProjectId InLoginId : String) :
    UXsollaLoginSubsystem :=
  let s := { s with ProjectID := InProjectId }
  let s := { s with LoginID := InLoginId }
  let LauncherLoginJwt := E.LauncherLoginJwt
  if !FString.IsEmpty LauncherLoginJwt then SetJWT s LauncherLoginJwt else s

/-- `UXsollaLoginSubsystem::Initialize(FSubsystemCollectionBase&)`, run when
the subsystem is created. -/
def Initialize_Collection (E : Engine) (s : UXsollaLoginSubsystem) : UXsollaLoginSubsystem :=
  let s := LoadSavedData s
  Initialize E s E.Settings.ProjectID E.Settings.LoginID

/-- `UXsollaLoginSubsystem::LaunchSocialAuthentication`. The browser widget
it creates and returns belongs to the user interface and is left out. -/
def LaunchSocialAuthentication (s : UXsollaLoginSubsystem) (SocialAuthenticationUrl : String)
    (bRememberMe : Bool) : UXsollaLoginSubsystem :=
  let s := { s with PendingSocialAuthenticationUrl := SocialAuthenticationUrl }
  let s := { s with LoginData := {} }
  let s := { s with LoginData := { s.LoginData with bRememberMe := bRememberMe } }
  SaveData s

/-- `UXsollaLoginSubsystem::SetToken`. -/
def SetToken (s : UXsollaLoginSubsystem) (Token : String) : UXsollaLoginSubsystem :=
  SaveData (SetJWT s Token)

/-- `UXsollaLoginSubsystem::DropLoginData`. -/
def DropLoginData (s : UXsollaLoginSubsystem) (ClearCache : Bool) : UXsollaLoginSubsystem :=
  let s := { s with LoginData := {} }
  if ClearCache then UXsollaLoginSave.Save s s.LoginData else s

/-- `UXsollaLoginSubsystem::GetLoginData`. -/
def GetLoginData (s : UXsollaLoginSubsystem) : FXsollaLoginData := s.LoginData

/-! ## Token payload inspector -/

/-- The pieces of a text between the occurrences of a delimiter, the empty
ones included. -/
def SplitAt (Delim : Char) : List Char → List (List Char)
  | [] => [[]]
  | c :: cs =>
    if c = Delim then [] :: SplitAt Delim cs
    else
      match SplitAt Delim cs with
      | Piece :: Pieces => (c :: Piece) :: Pieces
      | [] => [[c]]

/-- `FString::ParseIntoArray(OutArray, Delim)` for a one-character delimiter:
the pieces between the delimiters, the empty ones culled (`InCullEmpty` is
true by default). -/
def ParseIntoArray (s : String) (Delim : Char) : List String :=
  ((SplitAt Delim s.data).filter fun Piece => !Piece.isEmpty).map String.mk

/-- A failed check of the engine, which stops the program. -/
inductive EFault
  /-- `TArray::operator[]` with an index outside the array. -/
  | ArrayIndexOutOfBounds
  deriving DecidableEq, Repr

/-- `FJsonObject::TryGetBoolField`: a boolean as it is, a number and a string
converted by the engine, and no value for the rest. -/
def TryGetBoolField (E : Engine) (o : FJsonObject) (FieldName : String) : Option Bool :=
  match o.Find FieldName with
  | some (FJsonValue.boolean b) => some b
  | some (FJsonValue.number t) => some (E.NumberToBool t)
  | some (FJsonValue.string t) => some (E.ToBool t)
  | _ => none

/-- `UXsollaLoginSubsystem::ParseTokenPayload`: `ok (some J)` stands for true
with the payload J, `ok none` for false, and `error` for the failed range
check of `TokenParts[1]`, which the source reads without looking at the
number of parts. -/
def ParseTokenPayload (E : Engine) (Token : String) : Except EFault (Option FJsonObject) :=
  let TokenParts := ParseIntoArray Token '.'
  match TokenParts[1]? with
  | none => Except.error EFault.ArrayIndexOutOfBounds
  | some Part =>
    match E.Base64Decode Part with
    | none => Except.ok none
    | some PayloadStr => Except.ok (E.Deserialize PayloadStr)

/-- `UXsollaLoginSubsystem::GetUserId`. -/
def GetUserId (E : Engine) (Token : String) : Except EFault String :=
  match ParseTokenPayload E Token with
  | Except.error Fault => Except.error Fault
  | Except.ok none => Except.ok ""
  | Except.ok (some PayloadJsonObject) =>
    match PayloadJsonObject.TryGetStringField "sub" with
    | none => Except.ok ""
    | some UserId => Except.ok UserId

/-- `UXsollaLoginSubsystem::GetTokenProvider`. -/
def GetTokenProvider (E : Engine) (Token : String) : Except EFault String :=
  match ParseTokenPayload E Token with
  | Except.error Fault => Except.error Fault
  | Except.ok none => Except.ok ""
  | Except.ok (some PayloadJsonObject) =>
    match PayloadJsonObject.TryGetStringField "provider" with
    | none => Except.ok ""
    | some Provider => Except.ok Provider

/-- `UXsollaLoginSubsystem::GetTokenParameter`. -/
def GetTokenParameter (E : Engine) (Token Parameter : String) : Except EFault String :=
  match ParseTokenPayload E Token with
  | Except.error Fault => Except.error Fault
  | Except.ok none => Except.ok ""
  | Except.ok (some PayloadJsonObject) =>
    match PayloadJsonObject.TryGetStringField Parameter with
    | none => Except.ok ""
    | some ParameterValue => Except.ok ParameterValue

/-- `UXsollaLoginSubsystem::IsMasterAccount`. -/
def IsMasterAccount (E : Engine) (Token : String) : Except EFault Bool :=
  match ParseTokenPayload E Token with
  | Except.error Fault => Except.error Fault
  | Except.ok none => Except.ok false
  | Except.ok (some PayloadJsonObject) =>
    match TryGetBoolField E PayloadJsonObject "is_master" with
    | none => Except.ok false
    | some ParameterValue => Except.ok ParameterValue

/-! ## A concrete engine for evaluating the code on sample responses -/

/-- The sample response bodies and the objects the JSON reader yields for
them; any other text is taken as not being a JSON object. -/
def SampleDeserialize (Text : String) : Option FJsonObject :=
  if Text = "\x7b\"error\":\x7b\"code\":\"003-003\",\"description\":\"The username is already taken\"\x7d\x7d" then
    some [("error", FJsonValue.object [("code", FJsonValue.string "003-003"),
      ("description", FJsonValue.string "The username is already taken")])]
  else if Text = "\x7b\"error\":\x7b\"code\":\"003-003\",\"description\":\"\"\x7d\x7d" then
    some [("error", FJsonValue.object [("code", FJsonValue.string "003-003"),
      ("description", FJsonValue.string "")])]
  else if Text = "\x7b\"error\":\x7b\"code\":\"010-007\",\"description\":\"\"\x7d\x7d" then
    some [("error", FJsonValue.object [("code", FJsonValue.string "010-007"),
      ("description", FJsonValue.string "")])]
  else if Text = "\x7b\"message\":\"Bad Request\"\x7d" then
    some [("message", FJsonValue.string "Bad Request")]
  else if Text = "\x7b\"access_token\":\"X\",\"refresh_token\":\"Y\"\x7d" then
    some [("access_token", FJsonValue.string "X"), ("refresh_token", FJsonValue.string "Y")]
  else if Text = "\x7b\"access_token\":\"X\"\x7d" then
    some [("access_token", FJsonValue.string "X")]
  else if Text = "\x7b\"login_url\":\"https://game.example/cb?remember_me=false&token=abc.def.ghi&lang=en\"\x7d" then
    some [("login_url", FJsonValue.string "https://game.example/cb?remember_me=false&token=abc.def.ghi&lang=en")]
  else if Text = "\x7b\"login_url\":\"https://game.example/cb?token=abc?def\"\x7d" then
    some [("login_url", FJsonValue.string "https://game.example/cb?token=abc?def")]
  else if Text = "\x7b\"login_url\":\"https://game.example/cb?token=first&token=second\"\x7d" then
    some [("login_url", FJsonValue.string "https://game.example/cb?token=first&token=second")]
  else if Text = "\x7b\"login_url\":\"https://game.example/cb?remember_me=false&lang=en\"\x7d" then
    some [("login_url", FJsonValue.string "https://game.example/cb?remember_me=false&lang=en")]
  else if Text = "\x7b\"login_url\":\"https://login.xsolla.com/api/blank?state=xsollatest&code=abc123\"\x7d" then
    some [("login_url",
      FJsonValue.string "https://login.xsolla.com/api/blank?state=xsollatest&code=abc123")]
  else if Text = "\x7b\"login_url\":\"https://login.xsolla.com/api/blank?code=abc?123\"\x7d" then
    some [("login_url", FJsonValue.string "https://login.xsolla.com/api/blank?code=abc?123")]
  else if Text = "\x7b\"sub\":\"u1\",\"is_master\":true\x7d" then
    some [("sub", FJsonValue.string "u1"), ("is_master", FJsonValue.boolean true)]
  else if Text = "\x7b\"sub\":42\x7d" then
    some [("sub", FJsonValue.number "42")]
  else if Text = "\x7b\x7d" then
    some []
  else none

/-- The sample token payloads and the texts base64 decoding yields for
them; any other text is taken as not being base64. -/
def SampleBase64Decode (Text : String) : Option String :=
  if Text = "eyJzdWIiOiJ1MSIsImlzX21hc3RlciI6dHJ1ZX0=" then
    some "\x7b\"sub\":\"u1\",\"is_master\":true\x7d"
  else if Text = "eyJzdWIiOjQyfQ==" then
    some "\x7b\"sub\":42\x7d"
  else if Text = "bm90IGpzb24=" then
    some "not json"
  else none

/-- A concrete engine: statuses 200 to 299 are ok, the JSON reader and the
base64 decoder know the sample texts, URL coding is the identity and the
platform subsystem is inactive. -/
def SampleEngine : Engine where
  IsOk := fun Code => decide (200 ≤ Code ∧ Code ≤ 299)
  Deserialize := SampleDeserialize
  Serialize := fun _ => "\x7b\x7d"
  JsonArrayStringToUStruct := fun _ => none
  UrlEncode := fun Text => Text
  UrlDecode := fun Text => Text
  Base64Decode := SampleBase64Decode
  ToBool := fun Text => FString.Equals Text "true"
  NumberToBool := fun Text => decide (Text ≠ "0")
  IsSteamEnabled := false
  LauncherLoginJwt := ""
  Settings :=
    { ProjectID := "1", LoginID := "login-id", ClientID := "57", UseOAuth2 := false,
      UserDataStorage := EUserDataStorage.Xsolla, CallbackURL := "https://game.example/cb",
      AccountLinkingURL := "https://game.example/link",
      PlatformAuthenticationURL := "https://game.example/platform" }
  ENGINE_VERSION_STRING := "4.24.3"
  XSOLLA_LOGIN_VERSION := "0.1.2"

/-- The sample engine on a machine where the platform subsystem is active. -/
def SampleSteamEngine : Engine := { SampleEngine with IsSteamEnabled := true }

/-- The sample engine of a project whose settings carry no client
identifier. -/
def SampleNoClientEngine : Engine :=
  { SampleEngine with Settings := { SampleEngine.Settings with ClientID := "" } }

/-- The sample engine in a process started by the launcher with a token. -/
def SampleLauncherEngine : Engine := { SampleEngine with LauncherLoginJwt := "launcher.jwt.token" }

/-- A login record left by an earlier session. -/
def SampleLoginData : FXsollaLoginData :=
  { AuthToken := { JWT := "old.jwt.token", RefreshToken := "old-refresh", bIsVerified := false },
    Username := "user", Password := "secret", bRememberMe := true }

/-- A subsystem holding the sample record, in memory and in the save slot. -/
def SampleSubsystem : UXsollaLoginSubsystem :=
  { ProjectID := "1", LoginID := "login-id", LoginData := SampleLoginData,
    SaveSlot := SampleLoginData }

/-! ## The flow table of the specification -/

/-- The field a flow requires in a successful response, following the table
of flows in the specification (legacy login: `login_url`; OAuth2 token
flows: `access_token`; social URL: `url`; legacy cross authentication and
platform account authentication: `token`; account linking code: `code`;
session ticket OAuth2: `login_url`); the other flows require none. -/
def SpecRequiredField : Completion → Option String
  | Completion.UserLogin => some "login_url"
  | Completion.UserLoginOAuth => some "access_token"
  | Completion.RefreshTokenOAuth => some "access_token"
  | Completion.SocialAuthUrl => some "url"
  | Completion.CrossAuth => some "token"
  | Completion.AuthConsoleAccountUser => some "token"
  | Completion.AccountLinkingCode => some "code"
  | Completion.SessionTicketOAuth => some "login_url"
  | Completion.Default => none
  | Completion.TokenVerify => none
  | Completion.UpdateUserAttributes => none

/-- The rule of the specification for the persisted record: it is the
record in memory if `rememberMe` is set there, and the empty record if
not. -/
def SpecPersisted (s : UXsollaLoginSubsystem) : Prop :=
  s.SaveSlot = if s.LoginData.bRememberMe then s.LoginData else {}

/-- The query text made of the given parameters, each followed by `&`. -/
def SpecQueryOf : List String → String
  | [] => ""
  | Parameter :: Rest => Parameter ++ "&" ++ SpecQueryOf Rest

/-- The name of a query parameter: its text before the first `=`. -/
def SpecParameterName (Parameter : String) : String :=
  ⟨Parameter.data.takeWhile (· != '=')⟩

end UXsollaLoginSubsystem

end XsollaLogin

/-! ## Properties of the response classifier -/

namespace XsollaLogin

open UXsollaLoginSubsystem

theorem FString.IsEmpty_iff (s : String) : FString.IsEmpty s = true ↔ s = "" := by
  cases s with
  | mk d => cases d <;> simp [FString.IsEmpty, String.ext_iff]

theorem FString.IsEmpty_false_iff (s : String) : FString.IsEmpty s = false ↔ s ≠ "" := by
  rw [Ne, ← FString.IsEmpty_iff]; cases FString.IsEmpty s <;> simp

/-- An ok status on a valid response of a successful transfer is never an
error. -/
theorem HandleRequestError_ok (E : Engine) (Response : FHttpResponse) (ErrorCallback : Delegate)
    (hok : E.IsOk Response.ResponseCode = true) :
    HandleRequestError E (some Response) true ErrorCallback = (false, []) := by
  simp [HandleRequestError, hok, FString.IsEmpty]

/-- The classifier answers either true with one error call or false with no
action. -/
theorem HandleRequestError_cases (E : Engine) (HttpResponse : Option FHttpResponse)
    (bSucceeded : Bool) (ErrorCallback : Delegate) :
    (∃ Code Description,
        HandleRequestError E HttpResponse bSucceeded ErrorCallback =
          (true, [Call.Error ErrorCallback Code Description])) ∨
      (HandleRequestError E HttpResponse bSucceeded ErrorCallback = (false, []) ∧
        bSucceeded = true ∧ ∃ Response, HttpResponse = some Response) := by
  cases bSucceeded with
  | false => left; exact ⟨"204", "No response", by cases HttpResponse <;> rfl⟩
  | true =>
    cases HttpResponse with
    | none => left; exact ⟨"204", "No response", rfl⟩
    | some Response =>
      cases hok : E.IsOk Response.ResponseCode with
      | true => right; exact ⟨HandleRequestError_ok E Response ErrorCallback hok, rfl, Response, rfl⟩
      | false =>
        cases hd : E.Deserialize Response.Content with
        | none =>
          left
          exact ⟨toString Response.ResponseCode, "Can't deserialize error json", by
            simp [HandleRequestError, hok, hd, FString.IsEmpty]⟩
        | some JsonObject =>
          cases hf : JsonObject.HasTypedField EJson.Object "error" with
          | false =>
            left
            exact ⟨toString Response.ResponseCode,
              "Can't deserialize error json: no field 'error' found", by
              simp [HandleRequestError, hok, hd, hf, FString.IsEmpty]⟩
          | true =>
            cases he : FString.IsEmpty
              ((JsonObject.GetObjectField "error").GetStringField "description") with
            | true =>
              right
              exact ⟨by simp [HandleRequestError, hok, hd, hf, he], rfl, Response, rfl⟩
            | false =>
              left
              exact ⟨(JsonObject.GetObjectField "error").GetStringField "code",
                (JsonObject.GetObjectField "error").GetStringField "description", by
                simp [HandleRequestError, hok, hd, hf, he]⟩

/-- The classifier on a response whose body carries an error object with
string fields `code` and `description`: the pair is handed to the error
delegate, unless the description is empty, in which case nothing is
reported. -/
theorem HandleRequestError_error_object (E : Engine) (Response : FHttpResponse)
    (ErrorCallback : Delegate) (JsonObject ErrorObject : FJsonObject) (E1 D1 : String)
    (hok : E.IsOk Response.ResponseCode = false)
    (hd : E.Deserialize Response.Content = some JsonObject)
    (he : JsonObject.Find "error" = some (FJsonValue.object ErrorObject))
    (hc : ErrorObject.Find "code" = some (FJsonValue.string E1))
    (hdesc : ErrorObject.Find "description" = some (FJsonValue.string D1)) :
    HandleRequestError E (some Response) true ErrorCallback =
      if D1 = "" then (false, []) else (true, [Call.Error ErrorCallback E1 D1]) := by
  have hf : JsonObject.HasTypedField EJson.Object "error" = true := by
    simp [FJsonObject.HasTypedField, he, FJsonValue.Type_]
  have ho : JsonObject.GetObjectField "error" = ErrorObject := by
    simp [FJsonObject.GetObjectField, FJsonObject.GetField, he, FJsonValue.AsObject]
  have h1 : ErrorObject.GetStringField "code" = E1 := by
    simp [FJsonObject.GetStringField, FJsonObject.GetField, hc, FJsonValue.AsString]
  have h2 : ErrorObject.GetStringField "description" = D1 := by
    simp [FJsonObject.GetStringField, FJsonObject.GetField, hdesc, FJsonValue.AsString]
  by_cases hD : D1 = ""
  · have : FString.IsEmpty D1 = true := (FString.IsEmpty_iff D1).2 hD
    simp [HandleRequestError, hok, hd, hf, ho, h1, h2, this, if_pos hD]
  · have : FString.IsEmpty D1 = false := (FString.IsEmpty_false_iff D1).2 hD
    simp [HandleRequestError, hok, hd, hf, ho, h1, h2, this, hD]

/-- C1: the classifier does not report success only for ok statuses. On a
successful transfer with a valid response of status 400 whose error object
carries an empty description, `HandleRequestError` returns false and invokes
no delegate, and `Default_HttpRequestComplete` goes on to invoke the success
delegate. -/
theorem C1_error_status_classified_as_success :
    SampleEngine.IsOk 400 = false ∧
    HandleRequestError SampleEngine
      (some ⟨400, "\x7b\"error\":\x7b\"code\":\"003-003\",\"description\":\"\"\x7d\x7d"⟩)
      true 2 = (false, []) ∧
    Default_HttpRequestComplete SampleEngine SampleSubsystem
      (some ⟨400, "\x7b\"error\":\x7b\"code\":\"003-003\",\"description\":\"\"\x7d\x7d"⟩)
      true 1 2 = (SampleSubsystem, [Call.Success 1 Payload.None]) := by
  decide

/-- C2: the pair of the error object is not always handed over. For the
status 422 and the error object with code `010-007` and the empty
description, `HandleRequestError` does not invoke the error delegate with
(`010-007`, empty): it invokes nothing and returns false. -/
theorem C2_empty_description_not_reported :
    SampleEngine.IsOk 422 = false ∧
    SampleEngine.Deserialize "\x7b\"error\":\x7b\"code\":\"010-007\",\"description\":\"\"\x7d\x7d" =
      some [("error", FJsonValue.object [("code", FJsonValue.string "010-007"),
        ("description", FJsonValue.string "")])] ∧
    HandleRequestError SampleEngine
      (some ⟨422, "\x7b\"error\":\x7b\"code\":\"010-007\",\"description\":\"\"\x7d\x7d"⟩)
      true 2 = (false, []) ∧
    HandleRequestError SampleEngine
      (some ⟨422, "\x7b\"error\":\x7b\"code\":\"010-007\",\"description\":\"\"\x7d\x7d"⟩)
      true 2 ≠ (true, [Call.Error 2 "010-007" ""]) := by
  refine ⟨by decide, rfl, by decide, by decide⟩

/-- C3, as stated, fails: for the status 400 and the body `Bad Request`,
which is not JSON, the error delegate does not receive the code `204`, and
what it receives is the code `400` with a fixed description that holds
neither the status nor the body. -/
theorem C3_fallback_code_is_not_204 :
    SampleEngine.IsOk 400 = false ∧
    SampleEngine.Deserialize "Bad Request" = none ∧
    (¬ ∃ Description, (HandleRequestError SampleEngine (some ⟨400, "Bad Request"⟩) true 2).2 =
      [Call.Error 2 "204" Description]) ∧
    HandleRequestError SampleEngine (some ⟨400, "Bad Request"⟩) true 2 =
      (true, [Call.Error 2 "400" "Can't deserialize error json"]) := by
  refine ⟨by decide, rfl, ?_, by decide⟩
  intro h
  obtain ⟨d, hd⟩ := h
  have h2 : (HandleRequestError SampleEngine (some ⟨400, "Bad Request"⟩) true 2).2 =
      [Call.Error 2 "400" "Can't deserialize error json"] := by decide
  rw [h2] at hd
  simp at hd

/-- C3, amended: for a valid response of a successful transfer whose status
is not ok, the error delegate is invoked once and the classifier returns
true, with the decimal status as the code and with the description
`Can't deserialize error json` when the body is not a JSON object, and
`Can't deserialize error json: no field 'error' found` when it is a JSON
object without an object field `error`. -/
theorem C3_fallback_reports_status_code (E : Engine) (Response : FHttpResponse)
    (ErrorCallback : Delegate) (hok : E.IsOk Response.ResponseCode = false) :
    (E.Deserialize Response.Content = none →
      HandleRequestError E (some Response) true ErrorCallback =
        (true, [Call.Error ErrorCallback (toString Response.ResponseCode)
          "Can't deserialize error json"])) ∧
    (∀ JsonObject : FJsonObject, E.Deserialize Response.Content = some JsonObject →
      (∀ Values, JsonObject.Find "error" ≠ some (FJsonValue.object Values)) →
      HandleRequestError E (some Response) true ErrorCallback =
        (true, [Call.Error ErrorCallback (toString Response.ResponseCode)
          "Can't deserialize error json: no field 'error' found"])) := by
  constructor
  · intro hd
    simp [HandleRequestError, hok, hd, FString.IsEmpty]
  · intro JsonObject hd hno
    have hf : JsonObject.HasTypedField EJson.Object "error" = false := by
      unfold FJsonObject.HasTypedField
      cases hfind : FJsonObject.Find JsonObject "error" with
      | none => rfl
      | some v =>
        cases v with
        | object Values => exact absurd hfind (hno Values)
        | _ => simp [FJsonValue.Type_]
    simp [HandleRequestError, hok, hd, hf, FString.IsEmpty]

/-- The amended C3 on the sample engine: the status 400 with a body that is
not JSON, and with a JSON body that has no `error` field. -/
theorem C3_fallback_reports_status_code_witness :
    SampleEngine.IsOk 400 = false ∧
    HandleRequestError SampleEngine (some ⟨400, "Bad Request"⟩) true 2 =
      (true, [Call.Error 2 "400" "Can't deserialize error json"]) ∧
    HandleRequestError SampleEngine (some ⟨400, "\x7b\"message\":\"Bad Request\"\x7d"⟩) true 2 =
      (true, [Call.Error 2 "400" "Can't deserialize error json: no field 'error' found"]) :=
  ⟨by decide,
    (C3_fallback_reports_status_code SampleEngine ⟨400, "Bad Request"⟩ 2 (by decide)).1 rfl,
    (C3_fallback_reports_status_code SampleEngine
      ⟨400, "\x7b\"message\":\"Bad Request\"\x7d"⟩ 2 (by decide)).2
      [("message", FJsonValue.string "Bad Request")] rfl
      (fun Values h => by
        have hnone : FJsonObject.Find [("message", FJsonValue.string "Bad Request")] "error" =
            none := rfl
        rw [hnone] at h
        cases h)⟩

/-- C4: when the transfer failed or there is no response object, the error
delegate is invoked with the code `204` and the description `No response`,
and the classifier returns true. -/
theorem C4_no_response (E : Engine) (HttpResponse : Option FHttpResponse) (bSucceeded : Bool)
    (ErrorCallback : Delegate) (h : bSucceeded = false ∨ HttpResponse = none) :
    HandleRequestError E HttpResponse bSucceeded ErrorCallback =
      (true, [Call.Error ErrorCallback "204" "No response"]) := by
  rcases h with h | h
  · subst h; cases HttpResponse <;> rfl
  · subst h; cases bSucceeded <;> rfl

/-- C4 on the sample engine: a failed transfer that still carries a response
of status 200, and a successful transfer without a response object. -/
theorem C4_no_response_witness :
    HandleRequestError SampleEngine (some ⟨200, "\x7b\x7d"⟩) false 2 =
      (true, [Call.Error 2 "204" "No response"]) ∧
    HandleRequestError SampleEngine none true 2 =
      (true, [Call.Error 2 "204" "No response"]) :=
  ⟨C4_no_response SampleEngine (some ⟨200, "\x7b\x7d"⟩) false 2 (Or.inl rfl),
    C4_no_response SampleEngine none true 2 (Or.inr rfl)⟩


/-! ## Properties of the completion handlers and operations -/

/-- C5: every completion handler, on every input, invokes exactly one of the
success delegate and the error delegate, once, and performs no other action;
the session ticket handler of the OAuth2 flow either invokes the error
delegate once, or hands exactly one code exchange request, bound to the
delegates of the caller, to the transport and invokes no delegate. -/
theorem C5_exactly_one_callback (E : Engine) (s : UXsollaLoginSubsystem) (h : Completion)
    (HttpResponse : Option FHttpResponse) (bSucceeded : Bool)
    (SuccessCallback ErrorCallback : Delegate) :
    match h with
    | Completion.SessionTicketOAuth =>
      (∃ Code Description,
        (Complete E s h HttpResponse bSucceeded SuccessCallback ErrorCallback).2 =
          [Call.Error ErrorCallback Code Description]) ∨
      (∃ AuthenticationCode,
        (Complete E s h HttpResponse bSucceeded SuccessCallback ErrorCallback).2 =
          [Call.ProcessRequest (ExchangeAuthenticationCodeToTokenRequest E AuthenticationCode
            SuccessCallback ErrorCallback)])
    | _ =>
      (∃ Result,
        (Complete E s h HttpResponse bSucceeded SuccessCallback ErrorCallback).2 =
          [Call.Success SuccessCallback Result]) ∨
      (∃ Code Description,
        (Complete E s h HttpResponse bSucceeded SuccessCallback ErrorCallback).2 =
          [Call.Error ErrorCallback Code Description]) := by
  rcases HandleRequestError_cases E HttpResponse bSucceeded ErrorCallback with
    ⟨c, d, hc⟩ | ⟨hc, -, -⟩
  · cases h <;>
      simp [Complete, Default_HttpRequestComplete, UserLogin_HttpRequestComplete,
        UserLoginOAuth_HttpRequestComplete, HandleOAuthTokenRequest,
        TokenVerify_HttpRequestComplete, SocialAuthUrl_HttpRequestComplete,
        CrossAuth_HttpRequestComplete, UpdateUserAttributes_HttpRequestComplete,
        AccountLinkingCode_HttpRequestComplete, AuthConsoleAccountUser_HttpRequestComplete,
        RefreshTokenOAuth_HttpRequestComplete, SessionTicketOAuth_HttpRequestComplete, hc]
  · cases h <;>
      simp only [Complete, Default_HttpRequestComplete, UserLogin_HttpRequestComplete,
        UserLoginOAuth_HttpRequestComplete, HandleOAuthTokenRequest,
        TokenVerify_HttpRequestComplete, SocialAuthUrl_HttpRequestComplete,
        CrossAuth_HttpRequestComplete, UpdateUserAttributes_HttpRequestComplete,
        AccountLinkingCode_HttpRequestComplete, AuthConsoleAccountUser_HttpRequestComplete,
        RefreshTokenOAuth_HttpRequestComplete, SessionTicketOAuth_HttpRequestComplete, hc,
        ExchangeAuthenticationCodeToToken, List.nil_append] <;>
      (repeat' split) <;> (simp; try exact ⟨_, rfl⟩)

/-- C6: while the platform subsystem is active, `RegistrateUser`,
`AuthenticateUser` and `ResetUserPassword` each perform exactly one action,
the invocation of the error delegate, so no request reaches the transport
and the success delegate is not invoked; and the subsystem, its login record
and save slot included, is left as it was. -/
theorem C6_platform_precheck (E : Engine) (s : UXsollaLoginSubsystem)
    (Username Password Email State User : String) (bRememberMe : Bool)
    (SuccessCallback ErrorCallback : Delegate) (hSteam : E.IsSteamEnabled = true) :
    RegistrateUser E s Username Password Email State SuccessCallback ErrorCallback =
      (s, [Call.Error ErrorCallback "Registration failed"
        "User registration should be handled via Steam"]) ∧
    AuthenticateUser E s Username Password SuccessCallback ErrorCallback bRememberMe =
      (s, [Call.Error ErrorCallback "Authentication failed"
        "User authentication should be handled via Steam"]) ∧
    ResetUserPassword E s User SuccessCallback ErrorCallback =
      (s, [Call.Error ErrorCallback "Password reset failed"
        "User password reset should be handled via Steam"]) := by
  simp [RegistrateUser, AuthenticateUser, ResetUserPassword, hSteam]

/-- C6 on the sample engine with the platform subsystem active, and, for
contrast, `AuthenticateUser` with the platform subsystem inactive, which
resets the record and hands one request to the transport. -/
theorem C6_platform_precheck_witness :
    SampleSteamEngine.IsSteamEnabled = true ∧
    (RegistrateUser SampleSteamEngine SampleSubsystem "user" "secret" "u@example.com" "st" 1 2 =
      (SampleSubsystem, [Call.Error 2 "Registration failed"
        "User registration should be handled via Steam"]) ∧
    AuthenticateUser SampleSteamEngine SampleSubsystem "user" "secret" 1 2 false =
      (SampleSubsystem, [Call.Error 2 "Authentication failed"
        "User authentication should be handled via Steam"]) ∧
    ResetUserPassword SampleSteamEngine SampleSubsystem "user" 1 2 =
      (SampleSubsystem, [Call.Error 2 "Password reset failed"
        "User password reset should be handled via Steam"])) ∧
    (AuthenticateUser SampleEngine SampleSubsystem "user" "secret" 1 2 false).1.LoginData =
      { Username := "user", Password := "secret" } ∧
    (AuthenticateUser SampleEngine SampleSubsystem "user" "secret" 1 2 false).2.length = 1 :=
  ⟨rfl,
    C6_platform_precheck SampleSteamEngine SampleSubsystem "user" "secret" "u@example.com" "st"
      "user" false 1 2 rfl,
    by decide, by decide⟩

/-- A field that holds a string has the string type and is read back
unchanged. -/
theorem FJsonObject.string_field (JsonObject : FJsonObject) (FieldName Value : String)
    (h : JsonObject.Find FieldName = some (FJsonValue.string Value)) :
    JsonObject.HasTypedField EJson.String FieldName = true ∧
      JsonObject.GetStringField FieldName = Value := by
  simp [FJsonObject.HasTypedField, FJsonObject.GetStringField, FJsonObject.GetField, h,
    FJsonValue.Type_, FJsonValue.AsString]

/-- Without a string under the name, the typed probe fails. -/
theorem FJsonObject.no_string_field (JsonObject : FJsonObject) (FieldName : String)
    (h : ∀ Value, JsonObject.Find FieldName ≠ some (FJsonValue.string Value)) :
    JsonObject.HasTypedField EJson.String FieldName = false := by
  unfold FJsonObject.HasTypedField
  cases hfind : FJsonObject.Find JsonObject FieldName with
  | none => rfl
  | some v =>
    cases v with
    | string Value => exact absurd hfind (h Value)
    | _ => simp [FJsonValue.Type_]

/-- C7: the request of `ExchangeAuthenticationCodeToToken` is bound, for
every code, to the OAuth2 token handler with the delegates of the caller;
and when that handler, or the handler of the OAuth2 password login,
completes with an ok response whose body is an object with the strings
`access_token` = X and `refresh_token` = Y, the login record gets the JWT X
and the refresh token Y with every other field kept, the save slot gets the
whole updated record if `bRememberMe` is set (and the empty record if not),
and the success delegate receives the updated record. -/
theorem C7_oauth_tokens_stored (E : Engine) (s : UXsollaLoginSubsystem)
    (AuthenticationCode : String) (SuccessCallback ErrorCallback : Delegate)
    (Response : FHttpResponse) (JsonObject : FJsonObject) (X Y : String)
    (hok : E.IsOk Response.ResponseCode = true)
    (hd : E.Deserialize Response.Content = some JsonObject)
    (hX : JsonObject.Find "access_token" = some (FJsonValue.string X))
    (hY : JsonObject.Find "refresh_token" = some (FJsonValue.string Y)) :
    (ExchangeAuthenticationCodeToTokenRequest E AuthenticationCode SuccessCallback
        ErrorCallback).OnComplete =
      some (Completion.RefreshTokenOAuth, SuccessCallback, ErrorCallback) ∧
    Complete E s Completion.RefreshTokenOAuth (some Response) true SuccessCallback ErrorCallback =
      ({ s with
          LoginData := { s.LoginData with
            AuthToken := { s.LoginData.AuthToken with JWT := X, RefreshToken := Y } },
          SaveSlot :=
            if s.LoginData.bRememberMe then
              { s.LoginData with
                AuthToken := { s.LoginData.AuthToken with JWT := X, RefreshToken := Y } }
            else {} },
        [Call.Success SuccessCallback (Payload.LoginData { s.LoginData with
          AuthToken := { s.LoginData.AuthToken with JWT := X, RefreshToken := Y } })]) ∧
    Complete E s Completion.UserLoginOAuth (some Response) true SuccessCallback ErrorCallback =
      Complete E s Completion.RefreshTokenOAuth (some Response) true SuccessCallback
        ErrorCallback := by
  refine ⟨rfl, ?_, rfl⟩
  have h1 := FJsonObject.string_field JsonObject "access_token" X hX
  have h2 := FJsonObject.string_field JsonObject "refresh_token" Y hY
  simp only [Complete, RefreshTokenOAuth_HttpRequestComplete, HandleOAuthTokenRequest,
    HandleRequestError_ok E Response ErrorCallback hok, GetContentAsString, hd, h1.1, h1.2,
    h2.2, if_true, List.nil_append, SetJWT, SaveData, UXsollaLoginSave.Save]
  cases hr : s.LoginData.bRememberMe <;> simp

/-- C7 on the sample engine: the code `abc123`, the status 200 and the body
with `access_token` X and `refresh_token` Y, on a record with `bRememberMe`
set. -/
theorem C7_oauth_tokens_stored_witness :
    (ExchangeAuthenticationCodeToTokenRequest SampleEngine "abc123" 1 2).OnComplete =
      some (Completion.RefreshTokenOAuth, 1, 2) ∧
    Complete SampleEngine SampleSubsystem Completion.RefreshTokenOAuth
      (some ⟨200, "\x7b\"access_token\":\"X\",\"refresh_token\":\"Y\"\x7d"⟩) true 1 2 =
      ({ SampleSubsystem with
          LoginData := { SampleLoginData with AuthToken := { JWT := "X", RefreshToken := "Y" } },
          SaveSlot := { SampleLoginData with AuthToken := { JWT := "X", RefreshToken := "Y" } } },
        [Call.Success 1 (Payload.LoginData
          { SampleLoginData with AuthToken := { JWT := "X", RefreshToken := "Y" } })]) := by
  have h := C7_oauth_tokens_stored SampleEngine SampleSubsystem "abc123" 1 2
    ⟨200, "\x7b\"access_token\":\"X\",\"refresh_token\":\"Y\"\x7d"⟩
    [("access_token", FJsonValue.string "X"), ("refresh_token", FJsonValue.string "Y")]
    "X" "Y" (by decide) rfl rfl rfl
  exact ⟨h.1, h.2.1.trans (by decide)⟩

/-- C9: for each flow with a required field, an ok response whose body is a
JSON object without a string field of that name leaves the subsystem as it
was and makes the handler invoke the error delegate, once and as its only
action, with the code `204` and a description that names the field. -/
theorem C9_missing_field_is_error (E : Engine) (s : UXsollaLoginSubsystem) (h : Completion)
    (FieldName : String) (Response : FHttpResponse) (JsonObject : FJsonObject)
    (SuccessCallback ErrorCallback : Delegate)
    (hreq : SpecRequiredField h = some FieldName)
    (hok : E.IsOk Response.ResponseCode = true)
    (hd : E.Deserialize Response.Content = some JsonObject)
    (hno : ∀ Value, JsonObject.Find FieldName ≠ some (FJsonValue.string Value)) :
    Complete E s h (some Response) true SuccessCallback ErrorCallback =
      (s, [Call.Error ErrorCallback "204"
        ("Can't process response json: no field '" ++ FieldName ++ "' found")]) := by
  have hf := FJsonObject.no_string_field JsonObject FieldName hno
  cases h <;> simp only [SpecRequiredField, Option.some.injEq, reduceCtorEq] at hreq <;>
    subst hreq <;>
    simp [Complete, UserLogin_HttpRequestComplete, UserLoginOAuth_HttpRequestComplete,
      HandleOAuthTokenRequest, SocialAuthUrl_HttpRequestComplete,
      CrossAuth_HttpRequestComplete, AccountLinkingCode_HttpRequestComplete,
      AuthConsoleAccountUser_HttpRequestComplete, RefreshTokenOAuth_HttpRequestComplete,
      SessionTicketOAuth_HttpRequestComplete, HandleRequestError_ok E Response ErrorCallback hok,
      GetContentAsString, hd, hf, NoFieldFound]

/-- C9 on the sample engine: the status 200 with the empty object as the
body, given to the legacy login handler. -/
theorem C9_missing_field_is_error_witness :
    Complete SampleEngine SampleSubsystem Completion.UserLogin (some ⟨200, "\x7b\x7d"⟩) true 1 2 =
      (SampleSubsystem, [Call.Error 2 "204"
        "Can't process response json: no field 'login_url' found"]) :=
  C9_missing_field_is_error SampleEngine SampleSubsystem Completion.UserLogin "login_url"
    ⟨200, "\x7b\x7d"⟩ [] 1 2 rfl (by decide) rfl (fun _ h => by cases h)

/-- C10, as stated, fails: for the status 200 and the body with the string
`access_token` X and no `refresh_token`, the OAuth2 token handler does not
invoke the error delegate; it invokes the success delegate and replaces the
tokens of the login record, which had held an earlier JWT and refresh
token. -/
theorem C10_refresh_token_not_required :
    SampleEngine.IsOk 200 = true ∧
    SampleEngine.Deserialize "\x7b\"access_token\":\"X\"\x7d" =
      some [("access_token", FJsonValue.string "X")] ∧
    Complete SampleEngine SampleSubsystem Completion.RefreshTokenOAuth
      (some ⟨200, "\x7b\"access_token\":\"X\"\x7d"⟩) true 1 2 =
      ({ SampleSubsystem with
          LoginData := { SampleLoginData with AuthToken := { JWT := "X", RefreshToken := "" } },
          SaveSlot := { SampleLoginData with AuthToken := { JWT := "X", RefreshToken := "" } } },
        [Call.Success 1 (Payload.LoginData
          { SampleLoginData with AuthToken := { JWT := "X", RefreshToken := "" } })]) ∧
    (Complete SampleEngine SampleSubsystem Completion.RefreshTokenOAuth
      (some ⟨200, "\x7b\"access_token\":\"X\"\x7d"⟩) true 1 2).1.LoginData ≠
        SampleSubsystem.LoginData ∧
    ¬ ∃ Description, (Complete SampleEngine SampleSubsystem Completion.RefreshTokenOAuth
      (some ⟨200, "\x7b\"access_token\":\"X\"\x7d"⟩) true 1 2).2 =
        [Call.Error 2 "204" Description] := by
  refine ⟨by decide, rfl, by decide, by decide, ?_⟩
  rintro ⟨Description, hDescription⟩
  have h2 : (Complete SampleEngine SampleSubsystem Completion.RefreshTokenOAuth
      (some ⟨200, "\x7b\"access_token\":\"X\"\x7d"⟩) true 1 2).2 =
      [Call.Success 1 (Payload.LoginData
        { SampleLoginData with AuthToken := { JWT := "X", RefreshToken := "" } })] := by decide
  rw [h2] at hDescription
  simp at hDescription

/-- C10, amended: the OAuth2 token handlers require `access_token` only.
For an ok response whose body is an object with the string `access_token`
= X and no field `refresh_token`, the login record gets the JWT X and the
empty refresh token, the save slot follows `bRememberMe`, and the success
delegate, not the error delegate, is invoked with the updated record. -/
theorem C10_access_token_alone_succeeds (E : Engine) (s : UXsollaLoginSubsystem)
    (SuccessCallback ErrorCallback : Delegate)
    (Response : FHttpResponse) (JsonObject : FJsonObject) (X : String)
    (hok : E.IsOk Response.ResponseCode = true)
    (hd : E.Deserialize Response.Content = some JsonObject)
    (hX : JsonObject.Find "access_token" = some (FJsonValue.string X))
    (hY : JsonObject.Find "refresh_token" = none) :
    Complete E s Completion.RefreshTokenOAuth (some Response) true SuccessCallback ErrorCallback =
      ({ s with
          LoginData := { s.LoginData with
            AuthToken := { s.LoginData.AuthToken with JWT := X, RefreshToken := "" } },
          SaveSlot :=
            if s.LoginData.bRememberMe then
              { s.LoginData with
                AuthToken := { s.LoginData.AuthToken with JWT := X, RefreshToken := "" } }
            else {} },
        [Call.Success SuccessCallback (Payload.LoginData { s.LoginData with
          AuthToken := { s.LoginData.AuthToken with JWT := X, RefreshToken := "" } })]) ∧
    Complete E s Completion.UserLoginOAuth (some Response) true SuccessCallback ErrorCallback =
      Complete E s Completion.RefreshTokenOAuth (some Response) true SuccessCallback
        ErrorCallback := by
  refine ⟨?_, rfl⟩
  have h1 := FJsonObject.string_field JsonObject "access_token" X hX
  have h2 : JsonObject.GetStringField "refresh_token" = "" := by
    simp [FJsonObject.GetStringField, FJsonObject.GetField, hY, FJsonValue.AsString]
  simp only [Complete, RefreshTokenOAuth_HttpRequestComplete, HandleOAuthTokenRequest,
    HandleRequestError_ok E Response ErrorCallback hok, GetContentAsString, hd, h1.1, h1.2,
    h2, if_true, List.nil_append, SetJWT, SaveData, UXsollaLoginSave.Save]
  cases hr : s.LoginData.bRememberMe <;> simp

/-- The amended C10 on the sample engine. -/
theorem C10_access_token_alone_succeeds_witness :
    (Complete SampleEngine SampleSubsystem Completion.RefreshTokenOAuth
      (some ⟨200, "\x7b\"access_token\":\"X\"\x7d"⟩) true 1 2).2 =
      [Call.Success 1 (Payload.LoginData
        { SampleLoginData with AuthToken := { JWT := "X", RefreshToken := "" } })] := by
  have h := (C10_access_token_alone_succeeds SampleEngine SampleSubsystem 1 2
    ⟨200, "\x7b\"access_token\":\"X\"\x7d"⟩ [("access_token", FJsonValue.string "X")] "X"
    (by decide) rfl rfl rfl).1
  rw [h]
  decide


/-! ## Properties of the token extraction from `login_url` -/

/-- Replacing `&` by `?` leaves a text without `&` as it is. -/
theorem map_replace_of_not_mem (l : List Char) (h : '&' ∉ l) :
    l.map (fun c => if c = '&' then '?' else c) = l := by
  induction l with
  | nil => rfl
  | cons a t ih =>
    simp only [List.mem_cons, not_or] at h
    have ha : a ≠ '&' := fun e => h.1 e.symm
    simp [ha, ih h.2]

/-- Text without `?` in front of a `?` is what `GrabOption` grabs. -/
theorem GrabOption_pair (Pair Rest : List Char) (h : '?' ∉ Pair) :
    GrabOption ('?' :: (Pair ++ '?' :: Rest)) = some (Pair, '?' :: Rest) := by
  have hp : ∀ a ∈ Pair, (a != '?') = true := by
    intro a ha
    simp only [bne_iff_ne, ne_eq]
    intro e; subst e; exact h ha
  simp [GrabOption, List.takeWhile_append_of_pos hp, List.dropWhile_append_of_pos hp]

/-- Text without `?` at the end of the options is what `GrabOption` grabs. -/
theorem GrabOption_last (Pair : List Char) (h : '?' ∉ Pair) :
    GrabOption ('?' :: Pair) = some (Pair, []) := by
  have hp : ∀ a ∈ Pair, (a != '?') = true := by
    intro a ha
    simp only [bne_iff_ne, ne_eq]
    intro e; subst e; exact h ha
  have h1 := @List.takeWhile_append_of_pos _ _ Pair [] hp
  have h2 := @List.dropWhile_append_of_pos _ _ Pair [] hp
  simp only [List.append_nil, List.takeWhile_nil, List.dropWhile_nil] at h1 h2
  simp [GrabOption, h1, h2]

/-- A round of `GrabOption` shortens the options. -/
theorem GrabOption_length (Options Pair Rest : List Char)
    (h : GrabOption Options = some (Pair, Rest)) : Rest.length < Options.length := by
  unfold GrabOption at h
  split at h
  · rename_i rest
    simp only [Option.some.injEq, Prod.mk.injEq] at h
    rw [← h.2]
    have := (@List.dropWhile_sublist _ rest (· != '?')).length_le
    simp only [List.length_cons]
    omega
  · cases h

/-- The loop of `ParseOption` needs no more rounds than the options have
characters: with that much fuel or more, the result is the same. -/
theorem ParseOptionLoop_fuel (Key : String) :
    ∀ (fuel₁ fuel₂ : Nat) (Options : List Char),
      Options.length ≤ fuel₁ → Options.length ≤ fuel₂ →
      ParseOptionLoop fuel₁ Options Key = ParseOptionLoop fuel₂ Options Key := by
  intro fuel₁
  induction fuel₁ with
  | zero =>
    intro fuel₂ Options h₁ _
    have hnil : Options = [] := List.length_eq_zero.1 (Nat.le_zero.1 h₁)
    subst hnil
    cases fuel₂ <;> simp [ParseOptionLoop, GrabOption]
  | succ n ih =>
    intro fuel₂ Options h₁ h₂
    cases fuel₂ with
    | zero =>
      have hnil : Options = [] := List.length_eq_zero.1 (Nat.le_zero.1 h₂)
      subst hnil
      simp [ParseOptionLoop, GrabOption]
    | succ m =>
      simp only [ParseOptionLoop]
      cases hg : GrabOption Options with
      | none => rfl
      | some r =>
        obtain ⟨Pair, Rest⟩ := r
        have hlt := GrabOption_length Options Pair Rest hg
        simp only []
        split
        · rfl
        · exact ih m Rest (by omega) (by omega)

/-- The loop of `ParseOption` walks over leading pairs with other names. -/
theorem ParseOptionLoop_skip (Key : String) (Earlier : List String) :
    ∀ (fuel : Nat) (Rest : List Char),
      (∀ p ∈ Earlier, '?' ∉ p.data ∧ '&' ∉ p.data ∧
        FString.Equals Key (SpecParameterName p) = false) →
      ParseOptionLoop (Earlier.length + fuel)
          ('?' :: ((SpecQueryOf Earlier).data.map (fun c => if c = '&' then '?' else c) ++ Rest))
          Key =
        ParseOptionLoop fuel ('?' :: Rest) Key := by
  induction Earlier with
  | nil => intro fuel Rest _; simp [SpecQueryOf]
  | cons p ps ih =>
    intro fuel Rest h
    have hp := h p (List.mem_cons_self _ _)
    have hps : ∀ q ∈ ps, '?' ∉ q.data ∧ '&' ∉ q.data ∧
        FString.Equals Key (SpecParameterName q) = false :=
      fun q hq => h q (List.mem_cons_of_mem _ hq)
    have hamp : ("&" : String).data = ['&'] := rfl
    have hshape : '?' :: ((SpecQueryOf (p :: ps)).data.map (fun c => if c = '&' then '?' else c)
        ++ Rest) =
        '?' :: (p.data ++ '?' :: ((SpecQueryOf ps).data.map
          (fun c => if c = '&' then '?' else c) ++ Rest)) := by
      simp [SpecQueryOf, String.data_append, hamp, map_replace_of_not_mem p.data hp.2.1]
    have hfuel : (p :: ps).length + fuel = (ps.length + fuel) + 1 := by
      simp only [List.length_cons]; omega
    rw [hshape, hfuel, ParseOptionLoop, GrabOption_pair _ _ hp.1]
    have hk : FString.Equals Key ⟨(GetKeyValue p.data).1⟩ = false := hp.2.2
    simp only [hk]
    exact ih fuel Rest hps

/-- The loop of `ParseOption` returns the value of a leading pair named
`token`, up to the next `?` or the end of the options. -/
theorem ParseOptionLoop_token (fuel : Nat) (T : String) (After : List Char)
    (hT : '?' ∉ T.data) (hAfter : After = [] ∨ ∃ Rest, After = '?' :: Rest) :
    ParseOptionLoop (fuel + 1) ('?' :: (("token=" : String).data ++ T.data ++ After)) "token" =
      T := by
  have hpair : '?' ∉ ("token=" : String).data ++ T.data := by
    intro h
    rcases List.mem_append.1 h with h | h
    · revert h; decide
    · exact hT h
  have hgrab : GrabOption ('?' :: (("token=" : String).data ++ T.data ++ After)) =
      some (("token=" : String).data ++ T.data, After) := by
    rcases hAfter with h | ⟨Rest, h⟩
    · subst h; rw [List.append_nil]; exact GrabOption_last _ hpair
    · subst h; exact GrabOption_pair _ _ hpair
  have hkv : GetKeyValue (("token=" : String).data ++ T.data) = (("token" : String).data, T.data) := by
    have : ("token=" : String).data = ['t', 'o', 'k', 'e', 'n', '='] := rfl
    rw [this]
    have h2 : ("token" : String).data = ['t', 'o', 'k', 'e', 'n'] := rfl
    rw [h2]
    simp [GetKeyValue, List.takeWhile, List.dropWhile]
  rw [ParseOptionLoop, hgrab]
  simp only [hkv]
  have he : FString.Equals "token" ⟨("token" : String).data⟩ = true := by decide
  simp [he]

/-- The options the handlers take from a URL with a query: the text from
the first `?` on, with every `&` turned into `?`. -/
theorem UrlOptions_of_query (Base Query : String) (hBase : '?' ∉ Base.data) :
    FString.Replace
        (FString.RightChop (Base ++ "?" ++ Query) (FString.Find (Base ++ "?" ++ Query) '?'))
        '&' '?' =
      ⟨'?' :: Query.data.map (fun c => if c = '&' then '?' else c)⟩ := by
  have hq : ("?" : String).data = ['?'] := rfl
  have hdata : (Base ++ "?" ++ Query).data = Base.data ++ '?' :: Query.data := by
    simp [String.data_append, hq]
  have hfind : FString.Find (Base ++ "?" ++ Query) '?' = (Base.data.length : Int) := by
    simp [FString.Find, hdata, List.indexOf_append_of_not_mem hBase]
  have hchop : FString.RightChop (Base ++ "?" ++ Query) (Base.data.length : Int) =
      ⟨'?' :: Query.data⟩ := by
    have hn : (max (0 : Int) (min (Base.data.length : Int)
        ((Base.data ++ '?' :: Query.data).length : Int))).toNat = Base.data.length := by
      rw [List.length_append]
      push_cast
      omega
    unfold FString.RightChop
    rw [hdata, hn, List.drop_left]
  rw [hfind, hchop]
  simp [FString.Replace]

/-- Each parameter of a query text contributes at least its `&`. -/
theorem SpecQueryOf_length (Earlier : List String) :
    Earlier.length ≤ (SpecQueryOf Earlier).data.length := by
  induction Earlier with
  | nil => simp
  | cons p ps ih =>
    have hamp : ("&" : String).data = ['&'] := rfl
    simp only [SpecQueryOf, String.data_append, hamp, List.length_append, List.length_cons,
      List.length_nil]
    omega

/-- `ParseOption` on the options of a URL whose query holds parameters with
other names, then `token=T`, then nothing or further parameters. -/
theorem ParseOption_token_of_url (Base : String) (Earlier : List String) (T Later : String)
    (hBase : '?' ∉ Base.data)
    (hEarlier : ∀ p ∈ Earlier, '?' ∉ p.data ∧ '&' ∉ p.data ∧
      FString.Equals "token" (SpecParameterName p) = false)
    (hT : '?' ∉ T.data ∧ '&' ∉ T.data)
    (hLater : Later = "" ∨ ∃ Rest : String, Later = "&" ++ Rest) :
    ParseOption
        (FString.Replace
          (FString.RightChop (Base ++ "?" ++ (SpecQueryOf Earlier ++ "token=" ++ T ++ Later))
            (FString.Find (Base ++ "?" ++ (SpecQueryOf Earlier ++ "token=" ++ T ++ Later)) '?'))
          '&' '?')
        "token" = T := by
  rw [UrlOptions_of_query Base _ hBase]
  have htok : (("token=" : String).data.map (fun c => if c = '&' then '?' else c)) =
      ("token=" : String).data := by decide
  have hAfter : Later.data.map (fun c => if c = '&' then '?' else c) = [] ∨
      ∃ Rest, Later.data.map (fun c => if c = '&' then '?' else c) = '?' :: Rest := by
    rcases hLater with h | ⟨Rest, h⟩
    · left; subst h; rfl
    · right
      have hamp : ("&" : String).data = ['&'] := rfl
      exact ⟨Rest.data.map (fun c => if c = '&' then '?' else c), by
        simp [h, String.data_append, hamp]⟩
  have hsplit : (SpecQueryOf Earlier ++ "token=" ++ T ++ Later).data.map
        (fun c => if c = '&' then '?' else c) =
      (SpecQueryOf Earlier).data.map (fun c => if c = '&' then '?' else c) ++
        ((("token=" : String).data ++ T.data) ++
          Later.data.map (fun c => if c = '&' then '?' else c)) := by
    simp only [String.data_append, List.map_append, htok, map_replace_of_not_mem T.data hT.2,
      List.append_assoc]
  obtain ⟨k, hk⟩ : ∃ k, ('?' :: ((SpecQueryOf Earlier).data.map
        (fun c => if c = '&' then '?' else c) ++
        ((("token=" : String).data ++ T.data) ++
          Later.data.map (fun c => if c = '&' then '?' else c)))).length =
      Earlier.length + (k + 1) := by
    have hlen := SpecQueryOf_length Earlier
    refine ⟨(SpecQueryOf Earlier).data.length - Earlier.length +
      ((("token=" : String).data ++ T.data) ++
        Later.data.map (fun c => if c = '&' then '?' else c)).length, ?_⟩
    simp only [List.length_cons, List.length_append, List.length_map]
    omega
  unfold ParseOption
  simp only [hsplit]
  rw [hk, ParseOptionLoop_skip "token" Earlier (k + 1) _ hEarlier,
    ParseOptionLoop_token k T _ hT.1 hAfter]

/-- C8, as stated, fails: for the status 200 and the `login_url`
`https://game.example/cb?token=abc?def`, whose query is the one parameter
`token` with the value `abc?def`, the legacy login handler stores `abc`. -/
theorem C8_token_value_cut_at_question_mark :
    SampleEngine.IsOk 200 = true ∧
    SampleEngine.Deserialize
        "\x7b\"login_url\":\"https://game.example/cb?token=abc?def\"\x7d" =
      some [("login_url", FJsonValue.string "https://game.example/cb?token=abc?def")] ∧
    (UserLogin_HttpRequestComplete SampleEngine SampleSubsystem
      (some ⟨200, "\x7b\"login_url\":\"https://game.example/cb?token=abc?def\"\x7d"⟩)
      true 1 2).1.LoginData.AuthToken.JWT = "abc" ∧
    (UserLogin_HttpRequestComplete SampleEngine SampleSubsystem
      (some ⟨200, "\x7b\"login_url\":\"https://game.example/cb?token=abc?def\"\x7d"⟩)
      true 1 2).1.LoginData.AuthToken.JWT ≠ "abc?def" := by
  refine ⟨by decide, rfl, by decide, by decide⟩

/-- Of two parameters named `token`, the legacy login handler takes the
first. -/
theorem UserLogin_first_token_wins :
    (UserLogin_HttpRequestComplete SampleEngine SampleSubsystem
      (some ⟨200, "\x7b\"login_url\":\"https://game.example/cb?token=first&token=second\"\x7d"⟩)
      true 1 2).1.LoginData.AuthToken.JWT = "first" := by
  decide

/-- C8, amended: for an ok response whose body is an object with the string
`login_url` = Base `?` p1 `&` ... pn `&` `token=` T Later, where Base has no
`?`, no parameter pi holds `?` or `&` or is named `token` (the case of
letters ignored), T holds no `?` and no `&`, and Later is empty or starts
with `&`, the legacy login handler stores exactly T as the JWT, keeps the
other fields of the record, and hands the updated record to the success
delegate. -/
theorem C8_token_extracted (E : Engine) (s : UXsollaLoginSubsystem)
    (Response : FHttpResponse) (JsonObject : FJsonObject)
    (SuccessCallback ErrorCallback : Delegate)
    (Base : String) (Earlier : List String) (T Later : String)
    (hok : E.IsOk Response.ResponseCode = true)
    (hd : E.Deserialize Response.Content = some JsonObject)
    (hurl : JsonObject.Find "login_url" = some (FJsonValue.string
      (Base ++ "?" ++ (SpecQueryOf Earlier ++ "token=" ++ T ++ Later))))
    (hBase : '?' ∉ Base.data)
    (hEarlier : ∀ p ∈ Earlier, '?' ∉ p.data ∧ '&' ∉ p.data ∧
      FString.Equals "token" (SpecParameterName p) = false)
    (hT : '?' ∉ T.data ∧ '&' ∉ T.data)
    (hLater : Later = "" ∨ ∃ Rest : String, Later = "&" ++ Rest) :
    (UserLogin_HttpRequestComplete E s (some Response) true SuccessCallback
        ErrorCallback).1.LoginData =
      { s.LoginData with AuthToken := { s.LoginData.AuthToken with JWT := T } } ∧
    (UserLogin_HttpRequestComplete E s (some Response) true SuccessCallback ErrorCallback).2 =
      [Call.Success SuccessCallback (Payload.LoginData
        { s.LoginData with AuthToken := { s.LoginData.AuthToken with JWT := T } })] := by
  have h1 := FJsonObject.string_field JsonObject "login_url" _ hurl
  have hparse := ParseOption_token_of_url Base Earlier T Later hBase hEarlier hT hLater
  simp only [UserLogin_HttpRequestComplete, HandleRequestError_ok E Response ErrorCallback hok,
    GetContentAsString, hd, h1.1, h1.2, hparse, if_true, List.nil_append, SetJWT, SaveData,
    UXsollaLoginSave.Save]
  cases hr : s.LoginData.bRememberMe <;> simp

/-- The amended C8 on the sample engine: the token `abc.def.ghi` between the
parameters `remember_me=false` and `lang=en`. -/
theorem C8_token_extracted_witness :
    (UserLogin_HttpRequestComplete SampleEngine SampleSubsystem
      (some ⟨200, "\x7b\"login_url\":\"https://game.example/cb?remember_me=false&token=abc.def.ghi&lang=en\"\x7d"⟩)
      true 1 2).1.LoginData =
      { SampleLoginData with AuthToken := { SampleLoginData.AuthToken with JWT := "abc.def.ghi" } } :=
  (C8_token_extracted SampleEngine SampleSubsystem
    ⟨200, "\x7b\"login_url\":\"https://game.example/cb?remember_me=false&token=abc.def.ghi&lang=en\"\x7d"⟩
    [("login_url", FJsonValue.string
      "https://game.example/cb?remember_me=false&token=abc.def.ghi&lang=en")]
    1 2 "https://game.example/cb" ["remember_me=false"] "abc.def.ghi" "&lang=en"
    (by decide) rfl rfl (by decide) (by decide) (by decide) (Or.inr ⟨"lang=en", rfl⟩)).1

/-! ## Properties of the legacy login and session ticket handlers -/

/-- With no options left the loop of `ParseOption` finds nothing. -/
theorem ParseOptionLoop_nil (fuel : Nat) (Key : String) : ParseOptionLoop fuel [] Key = "" := by
  cases fuel <;> simp [ParseOptionLoop, GrabOption]

/-- The loop of `ParseOption` finds nothing in a last pair with another
name. -/
theorem ParseOptionLoop_miss (fuel : Nat) (Key Last : String) (hLast : '?' ∉ Last.data)
    (hName : FString.Equals Key (SpecParameterName Last) = false) :
    ParseOptionLoop fuel ('?' :: Last.data) Key = "" := by
  cases fuel with
  | zero => rfl
  | succ n =>
    rw [ParseOptionLoop, GrabOption_last _ hLast]
    have hk : FString.Equals Key ⟨(GetKeyValue Last.data).1⟩ = false := hName
    simp only [hk]
    exact ParseOptionLoop_nil n Key

/-- The loop of `ParseOption` returns the value of a leading pair with the
name asked for, up to the next `?` or the end of the options. -/
theorem ParseOptionLoop_hit (fuel : Nat) (Key T : String) (After : List Char)
    (hKey : '?' ∉ Key.data ∧ '=' ∉ Key.data)
    (hT : '?' ∉ T.data) (hAfter : After = [] ∨ ∃ Rest, After = '?' :: Rest) :
    ParseOptionLoop (fuel + 1) ('?' :: ((Key.data ++ '=' :: T.data) ++ After)) Key = T := by
  have hpair : '?' ∉ Key.data ++ '=' :: T.data := by
    intro h
    rcases List.mem_append.1 h with h | h
    · exact hKey.1 h
    · rcases List.mem_cons.1 h with h | h
      · revert h; decide
      · exact hT h
  have hgrab : GrabOption ('?' :: ((Key.data ++ '=' :: T.data) ++ After)) =
      some (Key.data ++ '=' :: T.data, After) := by
    rcases hAfter with h | ⟨Rest, h⟩
    · subst h; rw [List.append_nil]; exact GrabOption_last _ hpair
    · subst h; exact GrabOption_pair _ _ hpair
  have hp : ∀ a ∈ Key.data, (a != '=') = true := by
    intro a ha
    simp only [bne_iff_ne, ne_eq]
    intro e; subst e; exact hKey.2 ha
  have hkv : GetKeyValue (Key.data ++ '=' :: T.data) = (Key.data, T.data) := by
    simp [GetKeyValue, List.takeWhile_append_of_pos hp, List.dropWhile_append_of_pos hp]
  rw [ParseOptionLoop, hgrab]
  simp only [hkv]
  have he : FString.Equals Key ⟨Key.data⟩ = true := by simp [FString.Equals]
  simp [he]

/-- `ParseOption` on the options of a URL whose query holds parameters with
other names, then `Key=T`, then nothing or further parameters. -/
theorem ParseOption_key_of_url (Key Base : String) (Earlier : List String) (T Later : String)
    (hKey : '?' ∉ Key.data ∧ '=' ∉ Key.data ∧ '&' ∉ Key.data)
    (hBase : '?' ∉ Base.data)
    (hEarlier : ∀ p ∈ Earlier, '?' ∉ p.data ∧ '&' ∉ p.data ∧
      FString.Equals Key (SpecParameterName p) = false)
    (hT : '?' ∉ T.data ∧ '&' ∉ T.data)
    (hLater : Later = "" ∨ ∃ Rest : String, Later = "&" ++ Rest) :
    ParseOption
        (FString.Replace
          (FString.RightChop (Base ++ "?" ++ (SpecQueryOf Earlier ++ Key ++ "=" ++ T ++ Later))
            (FString.Find (Base ++ "?" ++ (SpecQueryOf Earlier ++ Key ++ "=" ++ T ++ Later)) '?'))
          '&' '?')
        Key = T := by
  rw [UrlOptions_of_query Base _ hBase]
  have heq : ("=" : String).data = ['='] := rfl
  have hAfter : Later.data.map (fun c => if c = '&' then '?' else c) = [] ∨
      ∃ Rest, Later.data.map (fun c => if c = '&' then '?' else c) = '?' :: Rest := by
    rcases hLater with h | ⟨Rest, h⟩
    · left; subst h; rfl
    · right
      have hamp : ("&" : String).data = ['&'] := rfl
      exact ⟨Rest.data.map (fun c => if c = '&' then '?' else c), by
        simp [h, String.data_append, hamp]⟩
  have hsplit : (SpecQueryOf Earlier ++ Key ++ "=" ++ T ++ Later).data.map
        (fun c => if c = '&' then '?' else c) =
      (SpecQueryOf Earlier).data.map (fun c => if c = '&' then '?' else c) ++
        ((Key.data ++ '=' :: T.data) ++
          Later.data.map (fun c => if c = '&' then '?' else c)) := by
    simp [String.data_append, heq, map_replace_of_not_mem T.data hT.2,
      map_replace_of_not_mem Key.data hKey.2.2]
  obtain ⟨k, hk⟩ : ∃ k, ('?' :: ((SpecQueryOf Earlier).data.map
        (fun c => if c = '&' then '?' else c) ++
        ((Key.data ++ '=' :: T.data) ++
          Later.data.map (fun c => if c = '&' then '?' else c)))).length =
      Earlier.length + (k + 1) := by
    have hlen := SpecQueryOf_length Earlier
    refine ⟨(SpecQueryOf Earlier).data.length - Earlier.length +
      ((Key.data ++ '=' :: T.data) ++
        Later.data.map (fun c => if c = '&' then '?' else c)).length, ?_⟩
    simp only [List.length_cons, List.length_append, List.length_map]
    omega
  unfold ParseOption
  simp only [hsplit]
  rw [hk, ParseOptionLoop_skip Key Earlier (k + 1) _ hEarlier,
    ParseOptionLoop_hit k Key T _ ⟨hKey.1, hKey.2.1⟩ hT.1 hAfter]

/-- `ParseOption` on the options of a URL whose query holds no parameter
with the name asked for. -/
theorem ParseOption_miss_of_url (Key Base : String) (Earlier : List String) (Last : String)
    (hBase : '?' ∉ Base.data)
    (hEarlier : ∀ p ∈ Earlier, '?' ∉ p.data ∧ '&' ∉ p.data ∧
      FString.Equals Key (SpecParameterName p) = false)
    (hLast : '?' ∉ Last.data ∧ '&' ∉ Last.data ∧
      FString.Equals Key (SpecParameterName Last) = false) :
    ParseOption
        (FString.Replace
          (FString.RightChop (Base ++ "?" ++ (SpecQueryOf Earlier ++ Last))
            (FString.Find (Base ++ "?" ++ (SpecQueryOf Earlier ++ Last)) '?'))
          '&' '?')
        Key = "" := by
  rw [UrlOptions_of_query Base _ hBase]
  have hsplit : (SpecQueryOf Earlier ++ Last).data.map (fun c => if c = '&' then '?' else c) =
      (SpecQueryOf Earlier).data.map (fun c => if c = '&' then '?' else c) ++ Last.data := by
    simp [String.data_append, map_replace_of_not_mem Last.data hLast.2.1]
  obtain ⟨k, hk⟩ : ∃ k, ('?' :: ((SpecQueryOf Earlier).data.map
        (fun c => if c = '&' then '?' else c) ++ Last.data)).length =
      Earlier.length + k := by
    have hlen := SpecQueryOf_length Earlier
    refine ⟨(SpecQueryOf Earlier).data.length - Earlier.length + Last.data.length + 1, ?_⟩
    simp only [List.length_cons, List.length_append, List.length_map]
    omega
  unfold ParseOption
  simp only [hsplit]
  rw [hk, ParseOptionLoop_skip Key Earlier k _ hEarlier,
    ParseOptionLoop_miss k Key Last hLast.1 hLast.2.2]

/-- `ParseOption` on the options of a URL without a query: the options are
the whole URL, which does not start with `?`. -/
theorem ParseOption_no_query (Key Url : String) (hUrl : '?' ∉ Url.data ∧ '&' ∉ Url.data) :
    ParseOption (FString.Replace (FString.RightChop Url (FString.Find Url '?')) '&' '?') Key =
      "" := by
  have hfind : FString.Find Url '?' = -1 := by
    simp [FString.Find, hUrl.1]
  have hchop : FString.RightChop Url (-1) = Url := by
    have hn : (max (0 : Int) (min (-1) (Url.data.length : Int))).toNat = 0 := by omega
    unfold FString.RightChop
    rw [hn, List.drop_zero]
  have hrep : FString.Replace Url '&' '?' = Url := by
    unfold FString.Replace
    rw [map_replace_of_not_mem Url.data hUrl.2]
  rw [hfind, hchop, hrep]
  unfold ParseOption
  cases hdata : Url.data with
  | nil => rfl
  | cons c cs =>
    have hc : c ≠ '?' := by
      intro e
      apply hUrl.1
      rw [hdata, e]
      exact List.mem_cons_self _ _
    simp only [List.length_cons, ParseOptionLoop]
    have hg : GrabOption (c :: cs) = none := by
      unfold GrabOption
      split
      · rename_i rest heq
        simp only [List.cons.injEq] at heq
        exact absurd heq.1 hc
      · rfl
    rw [hg]

/-- The legacy login handler on an ok response with a string `login_url`:
whatever `ParseOption` finds under `token` becomes the JWT, the record is
saved and the success delegate receives it. -/
theorem UserLogin_ok (E : Engine) (s : UXsollaLoginSubsystem)
    (Response : FHttpResponse) (JsonObject : FJsonObject)
    (SuccessCallback ErrorCallback : Delegate) (Url : String)
    (hok : E.IsOk Response.ResponseCode = true)
    (hd : E.Deserialize Response.Content = some JsonObject)
    (hurl : JsonObject.Find "login_url" = some (FJsonValue.string Url)) :
    UserLogin_HttpRequestComplete E s (some Response) true SuccessCallback ErrorCallback =
      (SaveData (SetJWT s (ParseOption
          (FString.Replace (FString.RightChop Url (FString.Find Url '?')) '&' '?') "token")),
        [Call.Success SuccessCallback (Payload.LoginData
          (SaveData (SetJWT s (ParseOption
            (FString.Replace (FString.RightChop Url (FString.Find Url '?')) '&' '?')
            "token"))).LoginData)]) := by
  have h1 := FJsonObject.string_field JsonObject "login_url" _ hurl
  simp only [UserLogin_HttpRequestComplete, HandleRequestError_ok E Response ErrorCallback hok,
    GetContentAsString, hd, h1.1, h1.2, if_true, List.nil_append]

/-- Saving leaves the record in memory as it is and fills the slot by the
`bRememberMe` flag. -/
theorem SaveData_eq (s : UXsollaLoginSubsystem) :
    SaveData s = { s with SaveSlot := if s.LoginData.bRememberMe then s.LoginData else {} } := by
  unfold SaveData UXsollaLoginSave.Save
  cases s.LoginData.bRememberMe <;> simp

/-- C11, as stated, fails: for the status 200 and the `login_url`
`https://game.example/cb?remember_me=false&lang=en`, which has no `token`
parameter, the legacy login handler invokes the success delegate, not the
error delegate, and overwrites the stored JWT with the empty string. -/
theorem C11_missing_token_is_not_an_error :
    SampleEngine.IsOk 200 = true ∧
    SampleEngine.Deserialize
        "\x7b\"login_url\":\"https://game.example/cb?remember_me=false&lang=en\"\x7d" =
      some [("login_url",
        FJsonValue.string "https://game.example/cb?remember_me=false&lang=en")] ∧
    SampleSubsystem.LoginData.AuthToken.JWT = "old.jwt.token" ∧
    UserLogin_HttpRequestComplete SampleEngine SampleSubsystem
      (some ⟨200, "\x7b\"login_url\":\"https://game.example/cb?remember_me=false&lang=en\"\x7d"⟩)
      true 1 2 =
      ({ SampleSubsystem with
          LoginData := { SampleLoginData with
            AuthToken := { SampleLoginData.AuthToken with JWT := "" } },
          SaveSlot := { SampleLoginData with
            AuthToken := { SampleLoginData.AuthToken with JWT := "" } } },
        [Call.Success 1 (Payload.LoginData { SampleLoginData with
          AuthToken := { SampleLoginData.AuthToken with JWT := "" } })]) := by
  refine ⟨by decide, rfl, rfl, by decide⟩

/-- C11, amended: the legacy login handler requires the string `login_url`
only. For an ok response whose `login_url` has no `token` parameter, being
either Base `?` p1 `&` ... `&` pn with no `?` in Base, no `?` or `&` inside a
parameter and no parameter named `token` (the case of letters ignored), or
a URL without `?` and `&`, the handler stores the empty string as the JWT,
keeps the other fields of the record, saves by `bRememberMe` and hands the
record to the success delegate; the error delegate is not invoked. -/
theorem C11_missing_token_stores_empty (E : Engine) (s : UXsollaLoginSubsystem)
    (Response : FHttpResponse) (JsonObject : FJsonObject)
    (SuccessCallback ErrorCallback : Delegate) (Url : String)
    (hok : E.IsOk Response.ResponseCode = true)
    (hd : E.Deserialize Response.Content = some JsonObject)
    (hurl : JsonObject.Find "login_url" = some (FJsonValue.string Url))
    (hno : (∃ (Base : String) (Earlier : List String) (Last : String),
        Url = Base ++ "?" ++ (SpecQueryOf Earlier ++ Last) ∧ '?' ∉ Base.data ∧
        (∀ p ∈ Earlier, '?' ∉ p.data ∧ '&' ∉ p.data ∧
          FString.Equals "token" (SpecParameterName p) = false) ∧
        ('?' ∉ Last.data ∧ '&' ∉ Last.data ∧
          FString.Equals "token" (SpecParameterName Last) = false)) ∨
      ('?' ∉ Url.data ∧ '&' ∉ Url.data)) :
    UserLogin_HttpRequestComplete E s (some Response) true SuccessCallback ErrorCallback =
      ({ s with
          LoginData := { s.LoginData with AuthToken := { s.LoginData.AuthToken with JWT := "" } },
          SaveSlot :=
            if s.LoginData.bRememberMe then
              { s.LoginData with AuthToken := { s.LoginData.AuthToken with JWT := "" } }
            else {} },
        [Call.Success SuccessCallback (Payload.LoginData
          { s.LoginData with AuthToken := { s.LoginData.AuthToken with JWT := "" } })]) := by
  have hparse : ParseOption
      (FString.Replace (FString.RightChop Url (FString.Find Url '?')) '&' '?') "token" = "" := by
    rcases hno with ⟨Base, Earlier, Last, hU, hBase, hEarlier, hLast⟩ | hplain
    · rw [hU]; exact ParseOption_miss_of_url "token" Base Earlier Last hBase hEarlier hLast
    · exact ParseOption_no_query "token" Url hplain
  rw [UserLogin_ok E s Response JsonObject SuccessCallback ErrorCallback Url hok hd hurl, hparse,
    SaveData_eq]
  simp [SetJWT]

/-- The amended C11 on the sample engine: the query `remember_me=false` and
`lang=en`. -/
theorem C11_missing_token_stores_empty_witness :
    (UserLogin_HttpRequestComplete SampleEngine SampleSubsystem
      (some ⟨200, "\x7b\"login_url\":\"https://game.example/cb?remember_me=false&lang=en\"\x7d"⟩)
      true 1 2).2 =
      [Call.Success 1 (Payload.LoginData { SampleLoginData with
        AuthToken := { SampleLoginData.AuthToken with JWT := "" } })] := by
  have h := C11_missing_token_stores_empty SampleEngine SampleSubsystem
    ⟨200, "\x7b\"login_url\":\"https://game.example/cb?remember_me=false&lang=en\"\x7d"⟩
    [("login_url", FJsonValue.string "https://game.example/cb?remember_me=false&lang=en")]
    1 2 "https://game.example/cb?remember_me=false&lang=en" (by decide) rfl rfl
    (Or.inl ⟨"https://game.example/cb", ["remember_me=false"], "lang=en", by decide, by decide,
      by decide, by decide⟩)
  rw [h]
  rfl

/-- The session ticket handler on an ok response with a string `login_url`:
whatever `ParseOption` finds under `code` in the decoded URL goes into the
one code exchange request, and the subsystem is left as it was. -/
theorem SessionTicketOAuth_ok (E : Engine) (s : UXsollaLoginSubsystem)
    (Response : FHttpResponse) (JsonObject : FJsonObject)
    (SuccessCallback ErrorCallback : Delegate) (LoginUrlRaw : String)
    (hok : E.IsOk Response.ResponseCode = true)
    (hd : E.Deserialize Response.Content = some JsonObject)
    (hurl : JsonObject.Find "login_url" = some (FJsonValue.string LoginUrlRaw)) :
    SessionTicketOAuth_HttpRequestComplete E s (some Response) true SuccessCallback
        ErrorCallback =
      (s, [Call.ProcessRequest (ExchangeAuthenticationCodeToTokenRequest E
        (ParseOption
          (FString.Replace
            (FString.RightChop (E.UrlDecode LoginUrlRaw)
              (FString.Find (E.UrlDecode LoginUrlRaw) '?')) '&' '?') "code")
        SuccessCallback ErrorCallback)]) := by
  have h1 := FJsonObject.string_field JsonObject "login_url" _ hurl
  simp only [SessionTicketOAuth_HttpRequestComplete,
    HandleRequestError_ok E Response ErrorCallback hok, GetContentAsString, hd, h1.1, h1.2,
    if_true, List.nil_append, ExchangeAuthenticationCodeToToken]

/-- C12, as stated, fails: for the status 200 and the `login_url`
`https://login.xsolla.com/api/blank?code=abc?123`, which URL decoding
leaves as it is and whose query is the one parameter `code` with the value
`abc?123`, the session ticket handler starts the code exchange with `abc`. -/
theorem C12_code_value_cut_at_question_mark :
    SampleEngine.IsOk 200 = true ∧
    SampleEngine.Deserialize
        "\x7b\"login_url\":\"https://login.xsolla.com/api/blank?code=abc?123\"\x7d" =
      some [("login_url", FJsonValue.string "https://login.xsolla.com/api/blank?code=abc?123")] ∧
    SampleEngine.UrlDecode "https://login.xsolla.com/api/blank?code=abc?123" =
      "https://login.xsolla.com/api/blank?code=abc?123" ∧
    SessionTicketOAuth_HttpRequestComplete SampleEngine SampleSubsystem
      (some ⟨200, "\x7b\"login_url\":\"https://login.xsolla.com/api/blank?code=abc?123\"\x7d"⟩)
      true 1 2 =
      (SampleSubsystem,
        [Call.ProcessRequest (ExchangeAuthenticationCodeToTokenRequest SampleEngine "abc" 1 2)]) ∧
    ExchangeAuthenticationCodeToTokenRequest SampleEngine "abc" 1 2 ≠
      ExchangeAuthenticationCodeToTokenRequest SampleEngine "abc?123" 1 2 := by
  refine ⟨by decide, rfl, rfl, by decide, by decide⟩

/-- C12, amended: for an ok response whose body is an object with a string
`login_url` that URL decoding turns into Base `?` p1 `&` ... pn `&` `code=`
C Later, where Base has no `?`, no parameter pi holds `?` or `&` or is named
`code` (the case of letters ignored), C holds no `?` and no `&`, and Later
is empty or starts with `&`, the session ticket handler leaves the
subsystem as it was, invokes no delegate and hands to the transport exactly
one request: the code exchange request for C, bound to the delegates of the
caller. -/
theorem C12_code_exchange_chained (E : Engine) (s : UXsollaLoginSubsystem)
    (Response : FHttpResponse) (JsonObject : FJsonObject)
    (SuccessCallback ErrorCallback : Delegate)
    (LoginUrlRaw Base : String) (Earlier : List String) (C Later : String)
    (hok : E.IsOk Response.ResponseCode = true)
    (hd : E.Deserialize Response.Content = some JsonObject)
    (hurl : JsonObject.Find "login_url" = some (FJsonValue.string LoginUrlRaw))
    (hdec : E.UrlDecode LoginUrlRaw = Base ++ "?" ++ (SpecQueryOf Earlier ++ "code" ++ "=" ++ C ++ Later))
    (hBase : '?' ∉ Base.data)
    (hEarlier : ∀ p ∈ Earlier, '?' ∉ p.data ∧ '&' ∉ p.data ∧
      FString.Equals "code" (SpecParameterName p) = false)
    (hC : '?' ∉ C.data ∧ '&' ∉ C.data)
    (hLater : Later = "" ∨ ∃ Rest : String, Later = "&" ++ Rest) :
    SessionTicketOAuth_HttpRequestComplete E s (some Response) true SuccessCallback
        ErrorCallback =
      (s, [Call.ProcessRequest
        (ExchangeAuthenticationCodeToTokenRequest E C SuccessCallback ErrorCallback)]) ∧
    (ExchangeAuthenticationCodeToTokenRequest E C SuccessCallback ErrorCallback).OnComplete =
      some (Completion.RefreshTokenOAuth, SuccessCallback, ErrorCallback) := by
  refine ⟨?_, rfl⟩
  rw [SessionTicketOAuth_ok E s Response JsonObject SuccessCallback ErrorCallback LoginUrlRaw
    hok hd hurl, hdec,
    ParseOption_key_of_url "code" Base Earlier C Later (by decide) hBase hEarlier hC hLater]

/-- The amended C12 on the sample engine: the code `abc123` after the
parameter `state=xsollatest`. -/
theorem C12_code_exchange_chained_witness :
    SessionTicketOAuth_HttpRequestComplete SampleEngine SampleSubsystem
      (some ⟨200, "\x7b\"login_url\":\"https://login.xsolla.com/api/blank?state=xsollatest&code=abc123\"\x7d"⟩)
      true 1 2 =
      (SampleSubsystem, [Call.ProcessRequest
        (ExchangeAuthenticationCodeToTokenRequest SampleEngine "abc123" 1 2)]) :=
  (C12_code_exchange_chained SampleEngine SampleSubsystem
    ⟨200, "\x7b\"login_url\":\"https://login.xsolla.com/api/blank?state=xsollatest&code=abc123\"\x7d"⟩
    [("login_url",
      FJsonValue.string "https://login.xsolla.com/api/blank?state=xsollatest&code=abc123")]
    1 2 "https://login.xsolla.com/api/blank?state=xsollatest&code=abc123"
    "https://login.xsolla.com/api/blank" ["state=xsollatest"] "abc123" ""
    (by decide) rfl rfl (by decide) (by decide) (by decide) (by decide) (Or.inl rfl)).1

/-! ## Properties of the token store -/

/-- C13: with the save slot as the persisted store, saving a login record r
and loading again yields r when `bRememberMe` is set in r, and the empty
record when it is not. -/
theorem C13_save_load_round_trip (s : UXsollaLoginSubsystem) (r : FXsollaLoginData) :
    (LoadSavedData (SaveData { s with LoginData := r })).LoginData =
      if r.bRememberMe then r else {} := by
  rw [SaveData_eq]
  rfl

/-- Saving puts the persisted record in step with the record in memory. -/
theorem SpecPersisted_SaveData (s : UXsollaLoginSubsystem) : SpecPersisted (SaveData s) := by
  rw [SaveData_eq]
  rfl

/-- C14, as stated, fails: after the initialization with a launcher token
over a persisted record with `bRememberMe` set, the record in memory holds
the launcher token and the persisted record still holds the earlier JWT;
and after `DropLoginData(false)` the record in memory is empty, with
`bRememberMe` not set, while the persisted record is not the empty one. -/
theorem C14_persisted_record_out_of_step :
    (Initialize_Collection SampleLauncherEngine SampleSubsystem).LoginData.bRememberMe = true ∧
    (Initialize_Collection SampleLauncherEngine SampleSubsystem).LoginData.AuthToken.JWT =
      "launcher.jwt.token" ∧
    (Initialize_Collection SampleLauncherEngine SampleSubsystem).SaveSlot.AuthToken.JWT =
      "old.jwt.token" ∧
    ¬ SpecPersisted (Initialize_Collection SampleLauncherEngine SampleSubsystem) ∧
    (DropLoginData SampleSubsystem false).LoginData = {} ∧
    (DropLoginData SampleSubsystem false).SaveSlot = SampleLoginData ∧
    ¬ SpecPersisted (DropLoginData SampleSubsystem false) := by
  unfold SpecPersisted
  refine ⟨by decide, by decide, by decide, by decide, by decide, by decide, by decide⟩

/-- C14, amended: after `AuthenticateUser` with the platform subsystem
inactive, `LaunchSocialAuthentication`, `SetToken`, `DropLoginData(true)`
and every completion handler that hands a login record to the success
delegate, the persisted record is the record in memory if `bRememberMe` is
set and the empty record if not; the initialization, with or without a
launcher token, and `DropLoginData(false)` leave the persisted record as it
was. -/
theorem C14_persisted_after_mutation (E : Engine) (s : UXsollaLoginSubsystem)
    (Username Password Token SocialAuthenticationUrl : String) (bRememberMe : Bool)
    (h : Completion) (HttpResponse : Option FHttpResponse) (bSucceeded : Bool)
    (SuccessCallback ErrorCallback : Delegate) (Data : FXsollaLoginData)
    (hSteam : E.IsSteamEnabled = false)
    (hSuccess : (Complete E s h HttpResponse bSucceeded SuccessCallback ErrorCallback).2 =
      [Call.Success SuccessCallback (Payload.LoginData Data)]) :
    SpecPersisted
      (AuthenticateUser E s Username Password SuccessCallback ErrorCallback bRememberMe).1 ∧
    SpecPersisted (LaunchSocialAuthentication s SocialAuthenticationUrl bRememberMe) ∧
    SpecPersisted (SetToken s Token) ∧
    SpecPersisted (DropLoginData s true) ∧
    SpecPersisted (Complete E s h HttpResponse bSucceeded SuccessCallback ErrorCallback).1 ∧
    (Initialize_Collection E s).SaveSlot = s.SaveSlot ∧
    (DropLoginData s false).SaveSlot = s.SaveSlot := by
  refine ⟨?_, ?_, ?_, ?_, ?_, ?_, ?_⟩
  · simp only [AuthenticateUser, hSteam, Bool.false_eq_true, if_false]
    split
    · exact SpecPersisted_SaveData _
    · exact SpecPersisted_SaveData _
  · exact SpecPersisted_SaveData _
  · exact SpecPersisted_SaveData _
  · simp [DropLoginData, UXsollaLoginSave.Save, SpecPersisted]
  · rcases HandleRequestError_cases E HttpResponse bSucceeded ErrorCallback with
      ⟨c, d, hc⟩ | ⟨hc, -, -⟩
    · exfalso
      revert hSuccess
      cases h <;>
        simp [Complete, Default_HttpRequestComplete, UserLogin_HttpRequestComplete,
          UserLoginOAuth_HttpRequestComplete, HandleOAuthTokenRequest,
          TokenVerify_HttpRequestComplete, SocialAuthUrl_HttpRequestComplete,
          CrossAuth_HttpRequestComplete, UpdateUserAttributes_HttpRequestComplete,
          AccountLinkingCode_HttpRequestComplete, AuthConsoleAccountUser_HttpRequestComplete,
          RefreshTokenOAuth_HttpRequestComplete, SessionTicketOAuth_HttpRequestComplete, hc]
    · revert hSuccess
      cases h <;>
        simp only [Complete, Default_HttpRequestComplete, UserLogin_HttpRequestComplete,
          UserLoginOAuth_HttpRequestComplete, HandleOAuthTokenRequest,
          TokenVerify_HttpRequestComplete, SocialAuthUrl_HttpRequestComplete,
          CrossAuth_HttpRequestComplete, UpdateUserAttributes_HttpRequestComplete,
          AccountLinkingCode_HttpRequestComplete, AuthConsoleAccountUser_HttpRequestComplete,
          RefreshTokenOAuth_HttpRequestComplete, SessionTicketOAuth_HttpRequestComplete, hc,
          ExchangeAuthenticationCodeToToken, List.nil_append] <;>
        (repeat' split) <;> intro hS <;>
        first
          | exact SpecPersisted_SaveData _
          | (simp at hS)
  · simp only [Initialize_Collection, Initialize, LoadSavedData, UXsollaLoginSave.Load]
    split <;> rfl
  · rfl

/-- The amended C14 on the sample engine, with the token validation handler
on a response of status 200 as the completion. -/
theorem C14_persisted_after_mutation_witness :
    SpecPersisted (AuthenticateUser SampleEngine SampleSubsystem "user" "secret" 1 2 false).1 ∧
    SpecPersisted (LaunchSocialAuthentication SampleSubsystem "https://social.example" false) ∧
    SpecPersisted (SetToken SampleSubsystem "new.jwt.token") ∧
    SpecPersisted (DropLoginData SampleSubsystem true) ∧
    SpecPersisted (Complete SampleEngine SampleSubsystem Completion.TokenVerify
      (some ⟨200, "\x7b\x7d"⟩) true 1 2).1 ∧
    (Initialize_Collection SampleEngine SampleSubsystem).SaveSlot = SampleSubsystem.SaveSlot ∧
    (DropLoginData SampleSubsystem false).SaveSlot = SampleSubsystem.SaveSlot :=
  C14_persisted_after_mutation SampleEngine SampleSubsystem "user" "secret" "new.jwt.token"
    "https://social.example" false Completion.TokenVerify (some ⟨200, "\x7b\x7d"⟩) true 1 2
    { SampleLoginData with AuthToken := { SampleLoginData.AuthToken with bIsVerified := true } }
    rfl (by decide)

/-- C15: `DropLoginData` leaves the empty record in memory; the persisted
record becomes the empty record when the cache is to be cleared and stays
as it was when not. -/
theorem C15_drop_login_data (s : UXsollaLoginSubsystem) (ClearCache : Bool) :
    (DropLoginData s ClearCache).LoginData = {} ∧
    (DropLoginData s ClearCache).SaveSlot = (if ClearCache then {} else s.SaveSlot) := by
  cases ClearCache <;> simp [DropLoginData, UXsollaLoginSave.Save]

/-- C16: after the initialization of the subsystem over the persisted record
p with the launcher parameter L, the JWT in memory is L when L is not empty
and the JWT of p when L is empty, and the user name, the password, the
`bRememberMe` flag, the refresh token and the verified flag are those of
p. -/
theorem C16_initialize_loads_and_overrides (E : Engine) (s : UXsollaLoginSubsystem) :
    (Initialize_Collection E s).LoginData.AuthToken.JWT =
      (if E.LauncherLoginJwt = "" then s.SaveSlot.AuthToken.JWT else E.LauncherLoginJwt) ∧
    (Initialize_Collection E s).LoginData.Username = s.SaveSlot.Username ∧
    (Initialize_Collection E s).LoginData.Password = s.SaveSlot.Password ∧
    (Initialize_Collection E s).LoginData.bRememberMe = s.SaveSlot.bRememberMe ∧
    (Initialize_Collection E s).LoginData.AuthToken.RefreshToken =
      s.SaveSlot.AuthToken.RefreshToken ∧
    (Initialize_Collection E s).LoginData.AuthToken.bIsVerified =
      s.SaveSlot.AuthToken.bIsVerified := by
  by_cases hL : E.LauncherLoginJwt = ""
  · have hE : FString.IsEmpty E.LauncherLoginJwt = true := (FString.IsEmpty_iff _).2 hL
    simp only [Initialize_Collection, Initialize, LoadSavedData, UXsollaLoginSave.Load, hE,
      Bool.not_true, Bool.false_eq_true, if_false, if_pos hL]
    simp
  · have hE : FString.IsEmpty E.LauncherLoginJwt = false := (FString.IsEmpty_false_iff _).2 hL
    simp only [Initialize_Collection, Initialize, LoadSavedData, UXsollaLoginSave.Load, hE,
      Bool.not_false, if_true, if_neg hL, SetJWT]
    simp

/-- C17, as stated, fails: with the platform subsystem inactive,
`RegistrateUser` starts a registration and the record in memory still holds
the JWT and the refresh token of the earlier session. -/
theorem C17_registration_keeps_token :
    SampleEngine.IsSteamEnabled = false ∧
    (RegistrateUser SampleEngine SampleSubsystem "user" "secret" "u@example.com" "st"
      1 2).2.length = 1 ∧
    (RegistrateUser SampleEngine SampleSubsystem "user" "secret" "u@example.com" "st"
      1 2).1.LoginData.AuthToken =
      { JWT := "old.jwt.token", RefreshToken := "old-refresh", bIsVerified := false } ∧
    (RegistrateUser SampleEngine SampleSubsystem "user" "secret" "u@example.com" "st"
      1 2).1.LoginData.AuthToken ≠ {} := by
  refine ⟨rfl, by decide, by decide, by decide⟩

/-- C17, amended: with the platform subsystem inactive, `AuthenticateUser`
and `LaunchSocialAuthentication` leave an empty token in the record in
memory (JWT empty, refresh token empty, not verified), whatever the record
held before, while `RegistrateUser` leaves the whole subsystem, the record
in memory included, as it was. -/
theorem C17_token_reset_on_login_and_social_launch (E : Engine) (s : UXsollaLoginSubsystem)
    (Username Password Email State SocialAuthenticationUrl : String) (bRememberMe : Bool)
    (SuccessCallback ErrorCallback : Delegate) (hSteam : E.IsSteamEnabled = false) :
    (AuthenticateUser E s Username Password SuccessCallback ErrorCallback
      bRememberMe).1.LoginData =
      { Username := Username, Password := Password, bRememberMe := bRememberMe } ∧
    (AuthenticateUser E s Username Password SuccessCallback ErrorCallback
      bRememberMe).1.LoginData.AuthToken = {} ∧
    (LaunchSocialAuthentication s SocialAuthenticationUrl bRememberMe).LoginData =
      { bRememberMe := bRememberMe } ∧
    (LaunchSocialAuthentication s SocialAuthenticationUrl bRememberMe).LoginData.AuthToken =
      {} ∧
    (RegistrateUser E s Username Password Email State SuccessCallback ErrorCallback).1 = s := by
  have hA : (AuthenticateUser E s Username Password SuccessCallback ErrorCallback
      bRememberMe).1.LoginData =
      { Username := Username, Password := Password, bRememberMe := bRememberMe } := by
    simp only [AuthenticateUser, hSteam, Bool.false_eq_true, if_false, SaveData_eq]
    split <;> rfl
  have hL : (LaunchSocialAuthentication s SocialAuthenticationUrl bRememberMe).LoginData =
      { bRememberMe := bRememberMe } := by
    simp only [LaunchSocialAuthentication, SaveData_eq]
  refine ⟨hA, by rw [hA], hL, by rw [hL], ?_⟩
  simp only [RegistrateUser, hSteam, Bool.false_eq_true, if_false]
  split <;> rfl

/-- The amended C17 on the sample engine and the record of an earlier
session. -/
theorem C17_token_reset_on_login_and_social_launch_witness :
    (AuthenticateUser SampleEngine SampleSubsystem "user" "secret" 1 2 true).1.LoginData.AuthToken =
      {} ∧
    (LaunchSocialAuthentication SampleSubsystem "https://social.example" true).LoginData.AuthToken =
      {} ∧
    (RegistrateUser SampleEngine SampleSubsystem "user" "secret" "u@example.com" "st" 1 2).1 =
      SampleSubsystem :=
  have h := C17_token_reset_on_login_and_social_launch SampleEngine SampleSubsystem "user"
    "secret" "u@example.com" "st" "https://social.example" true 1 2 rfl
  ⟨h.2.1, h.2.2.2.1, h.2.2.2.2⟩

/-- C18: on an ok response, whatever its body, the token validation handler
sets the verified flag, keeps every other field of the login record, fills
the save slot with the updated record if `bRememberMe` is set and with the
empty record if not, and hands the updated record to the success delegate
as its only action. -/
theorem C18_token_verified (E : Engine) (s : UXsollaLoginSubsystem)
    (Response : FHttpResponse) (SuccessCallback ErrorCallback : Delegate)
    (hok : E.IsOk Response.ResponseCode = true) :
    TokenVerify_HttpRequestComplete E s (some Response) true SuccessCallback ErrorCallback =
      ({ s with
          LoginData := { s.LoginData with
            AuthToken := { s.LoginData.AuthToken with bIsVerified := true } },
          SaveSlot :=
            if s.LoginData.bRememberMe then
              { s.LoginData with AuthToken := { s.LoginData.AuthToken with bIsVerified := true } }
            else {} },
        [Call.Success SuccessCallback (Payload.LoginData { s.LoginData with
          AuthToken := { s.LoginData.AuthToken with bIsVerified := true } })]) := by
  simp only [TokenVerify_HttpRequestComplete, HandleRequestError_ok E Response ErrorCallback hok,
    List.nil_append, SaveData_eq]

/-- C18 on the sample engine: the status 200 with a body that is not JSON. -/
theorem C18_token_verified_witness :
    SampleEngine.Deserialize "OK" = none ∧
    TokenVerify_HttpRequestComplete SampleEngine SampleSubsystem (some ⟨200, "OK"⟩) true 1 2 =
      ({ SampleSubsystem with
          LoginData := { SampleLoginData with
            AuthToken := { SampleLoginData.AuthToken with bIsVerified := true } },
          SaveSlot := { SampleLoginData with
            AuthToken := { SampleLoginData.AuthToken with bIsVerified := true } } },
        [Call.Success 1 (Payload.LoginData { SampleLoginData with
          AuthToken := { SampleLoginData.AuthToken with bIsVerified := true } })]) :=
  ⟨rfl, (C18_token_verified SampleEngine SampleSubsystem ⟨200, "OK"⟩ 1 2 (by decide)).trans
    (by decide)⟩

/-! ## Properties of the token payload inspector -/

/-- A token with fewer than two parts makes `ParseTokenPayload`, and with it
every accessor, stop at the range check of `TokenParts[1]`, whatever the
engine decodes. -/
theorem ParseTokenPayload_short (E : Engine) (Token Parameter : String)
    (h : (ParseIntoArray Token '.').length < 2) :
    ParseTokenPayload E Token = Except.error EFault.ArrayIndexOutOfBounds ∧
    GetUserId E Token = Except.error EFault.ArrayIndexOutOfBounds ∧
    GetTokenProvider E Token = Except.error EFault.ArrayIndexOutOfBounds ∧
    GetTokenParameter E Token Parameter = Except.error EFault.ArrayIndexOutOfBounds ∧
    IsMasterAccount E Token = Except.error EFault.ArrayIndexOutOfBounds := by
  have hnone : (ParseIntoArray Token '.')[1]? = none := by
    rw [List.getElem?_eq_none_iff]
    omega
  have hp : ParseTokenPayload E Token = Except.error EFault.ArrayIndexOutOfBounds := by
    simp only [ParseTokenPayload, hnone]
  simp only [GetUserId, GetTokenProvider, GetTokenParameter, IsMasterAccount, hp, and_self]

/-- C19: a token with fewer than two parts is not answered with the failure
signal. For `not-a-jwt`, which has one part, and for the empty token, which
has none, `ParseTokenPayload` reads `TokenParts[1]` outside the array, so
that it and `GetUserId` end in the failed range check instead of returning
false and the empty string. -/
theorem C19_short_token_read_out_of_bounds :
    ParseIntoArray "not-a-jwt" '.' = ["not-a-jwt"] ∧
    ParseTokenPayload SampleEngine "not-a-jwt" = Except.error EFault.ArrayIndexOutOfBounds ∧
    GetUserId SampleEngine "not-a-jwt" = Except.error EFault.ArrayIndexOutOfBounds ∧
    ParseIntoArray "" '.' = [] ∧
    ParseTokenPayload SampleEngine "" = Except.error EFault.ArrayIndexOutOfBounds ∧
    GetUserId SampleEngine "" = Except.error EFault.ArrayIndexOutOfBounds := by
  refine ⟨by decide, rfl, rfl, by decide, rfl, rfl⟩

/-- C20, as stated, fails: for the token `a.eyJzdWIiOjQyfQ==.c`, whose second
part decodes to the object with the number 42 under `sub`, `GetUserId`
returns the text of the number, not the empty string. -/
theorem C20_number_claim_returned_as_text :
    ParseIntoArray "a.eyJzdWIiOjQyfQ==.c" '.' = ["a", "eyJzdWIiOjQyfQ==", "c"] ∧
    SampleEngine.Base64Decode "eyJzdWIiOjQyfQ==" = some "\x7b\"sub\":42\x7d" ∧
    SampleEngine.Deserialize "\x7b\"sub\":42\x7d" = some [("sub", FJsonValue.number "42")] ∧
    GetUserId SampleEngine "a.eyJzdWIiOjQyfQ==.c" = Except.ok "42" ∧
    GetUserId SampleEngine "a.eyJzdWIiOjQyfQ==.c" ≠ Except.ok "" := by
  refine ⟨by decide, by decide, rfl, rfl, ?_⟩
  intro h
  have h2 : GetUserId SampleEngine "a.eyJzdWIiOjQyfQ==.c" = Except.ok "42" := rfl
  rw [h2] at h
  exact absurd (Except.ok.inj h) (by decide)

/-- C20, amended: for a token with at least two non-empty parts between its
dots, take the second of them. When it base64 decodes to a JSON object J,
`GetTokenParameter` returns the field of that name if it is a string, the
text the engine renders if it is a number or a boolean, and the empty
string if it is absent, null, an array or an object, and `GetUserId` and
`GetTokenProvider` do so for `sub` and `provider`; `IsMasterAccount` returns
`is_master` if it is a boolean, what the engine converts it to if it is a
number or a string, and false if it is absent, null, an array or an object.
When the part fails to decode or to parse, the string accessors return the
empty string and `IsMasterAccount` returns false. -/
theorem C20_token_accessors (E : Engine) (Token Part Parameter : String)
    (hPart : (ParseIntoArray Token '.')[1]? = some Part) :
    match (E.Base64Decode Part).bind E.Deserialize with
    | some J =>
      GetTokenParameter E Token Parameter = Except.ok
        (match FJsonObject.Find J Parameter with
          | some (FJsonValue.string Value) => Value
          | some (FJsonValue.number Text) => Text
          | some (FJsonValue.boolean Value) => if Value then "true" else "false"
          | _ => "") ∧
      GetUserId E Token = GetTokenParameter E Token "sub" ∧
      GetTokenProvider E Token = GetTokenParameter E Token "provider" ∧
      IsMasterAccount E Token = Except.ok
        (match FJsonObject.Find J "is_master" with
          | some (FJsonValue.boolean Value) => Value
          | some (FJsonValue.number Text) => E.NumberToBool Text
          | some (FJsonValue.string Text) => E.ToBool Text
          | _ => false)
    | none =>
      GetTokenParameter E Token Parameter = Except.ok "" ∧
      GetUserId E Token = Except.ok "" ∧
      GetTokenProvider E Token = Except.ok "" ∧
      IsMasterAccount E Token = Except.ok false := by
  have hp : ParseTokenPayload E Token = Except.ok ((E.Base64Decode Part).bind E.Deserialize) := by
    simp only [ParseTokenPayload, hPart]
    cases E.Base64Decode Part <;> rfl
  cases hJ : (E.Base64Decode Part).bind E.Deserialize with
  | none =>
    rw [hJ] at hp
    simp only [GetUserId, GetTokenProvider, GetTokenParameter, IsMasterAccount, hp, and_self]
  | some J =>
    rw [hJ] at hp
    refine ⟨?_, ?_, ?_, ?_⟩
    · simp only [GetTokenParameter, hp, FJsonObject.TryGetStringField]
      cases hf : FJsonObject.Find J Parameter with
      | none => rfl
      | some v => cases v <;> rfl
    · simp only [GetUserId, GetTokenParameter, hp]
    · simp only [GetTokenProvider, GetTokenParameter, hp]
    · simp only [IsMasterAccount, hp, TryGetBoolField]
      cases hf : FJsonObject.Find J "is_master" with
      | none => rfl
      | some v => cases v <;> rfl

/-- The amended C20 on the sample engine: the token `a.b.c` whose part b is
the base64 text of the object with `sub` = `u1` and `is_master` = true. -/
theorem C20_token_accessors_witness :
    GetUserId SampleEngine "a.eyJzdWIiOiJ1MSIsImlzX21hc3RlciI6dHJ1ZX0=.c" = Except.ok "u1" ∧
    IsMasterAccount SampleEngine "a.eyJzdWIiOiJ1MSIsImlzX21hc3RlciI6dHJ1ZX0=.c" =
      Except.ok true := by
  have h := C20_token_accessors SampleEngine "a.eyJzdWIiOiJ1MSIsImlzX21hc3RlciI6dHJ1ZX0=.c"
    "eyJzdWIiOiJ1MSIsImlzX21hc3RlciI6dHJ1ZX0=" "sub" (by decide)
  have hJ : (SampleEngine.Base64Decode "eyJzdWIiOiJ1MSIsImlzX21hc3RlciI6dHJ1ZX0=").bind
      SampleEngine.Deserialize =
      some [("sub", FJsonValue.string "u1"), ("is_master", FJsonValue.boolean true)] := rfl
  rw [hJ] at h
  exact ⟨h.2.1.trans h.1, h.2.2.2⟩

/-! ## Properties of the request builder -/

/-- Setting a header whose name no header of the request has appends it. -/
theorem SetHeader_Headers_new (r : FHttpRequest) (HeaderName HeaderValue : String)
    (h : r.Headers.any (fun p => FString.Equals p.1 HeaderName) = false) :
    (SetHeader r HeaderName HeaderValue).Headers = r.Headers ++ [(HeaderName, HeaderValue)] := by
  simp [SetHeader, h]

/-- Setting a header leaves the content of the request as it is. -/
theorem SetHeader_Content (r : FHttpRequest) (HeaderName HeaderValue : String) :
    (SetHeader r HeaderName HeaderValue).Content = r.Content := by
  unfold SetHeader
  split <;> rfl

/-- The four telemetry headers are appended, in their order, to a request
that so far carries at most the content type and the authorization. -/
theorem SetHeader_telemetry (r : FHttpRequest) (V W : String)
    (h : ∀ p ∈ r.Headers, p.1 = "Content-Type" ∨ p.1 = "Authorization") :
    (SetHeader (SetHeader (SetHeader (SetHeader r "X-ENGINE" "UE4") "X-ENGINE-V" V)
        "X-SDK" "LOGIN") "X-SDK-V" W).Headers =
      r.Headers ++ [("X-ENGINE", "UE4"), ("X-ENGINE-V", V), ("X-SDK", "LOGIN"), ("X-SDK-V", W)] ∧
    (SetHeader (SetHeader (SetHeader (SetHeader r "X-ENGINE" "UE4") "X-ENGINE-V" V)
        "X-SDK" "LOGIN") "X-SDK-V" W).Content = r.Content := by
  have hany : ∀ Name : String, FString.Equals "Content-Type" Name = false →
      FString.Equals "Authorization" Name = false →
      r.Headers.any (fun p => FString.Equals p.1 Name) = false := by
    intro Name h1 h2
    rw [List.any_eq_false]
    intro p hp
    rcases h p hp with e | e <;> simp [e, h1, h2]
  have e1 : FString.Equals "X-ENGINE" "X-ENGINE-V" = false := by decide
  have e2 : FString.Equals "X-ENGINE" "X-SDK" = false := by decide
  have e3 : FString.Equals "X-ENGINE" "X-SDK-V" = false := by decide
  have e4 : FString.Equals "X-ENGINE-V" "X-SDK" = false := by decide
  have e5 : FString.Equals "X-ENGINE-V" "X-SDK-V" = false := by decide
  have e6 : FString.Equals "X-SDK" "X-SDK-V" = false := by decide
  have a1 := SetHeader_Headers_new r "X-ENGINE" "UE4" (hany _ (by decide) (by decide))
  have a2 := SetHeader_Headers_new (SetHeader r "X-ENGINE" "UE4") "X-ENGINE-V" V (by
    rw [a1, List.any_append, hany _ (by decide) (by decide)]
    simp only [List.any_cons, List.any_nil, e1, Bool.or_false])
  have a3 := SetHeader_Headers_new (SetHeader (SetHeader r "X-ENGINE" "UE4") "X-ENGINE-V" V)
    "X-SDK" "LOGIN" (by
    rw [a2, a1, List.any_append, List.any_append, hany _ (by decide) (by decide)]
    simp only [List.any_cons, List.any_nil, e2, e4, Bool.or_false])
  have a4 := SetHeader_Headers_new
    (SetHeader (SetHeader (SetHeader r "X-ENGINE" "UE4") "X-ENGINE-V" V) "X-SDK" "LOGIN")
    "X-SDK-V" W (by
    rw [a3, a2, a1, List.any_append, List.any_append, List.any_append,
      hany _ (by decide) (by decide)]
    simp only [List.any_cons, List.any_nil, e3, e5, e6, Bool.or_false])
  refine ⟨?_, ?_⟩
  · rw [a4, a3, a2, a1]
    simp
  · simp only [SetHeader_Content]

/-- Setting a header leaves the URL of the request as it is. -/
theorem SetHeader_URL (r : FHttpRequest) (HeaderName HeaderValue : String) :
    (SetHeader r HeaderName HeaderValue).URL = r.URL := by
  unfold SetHeader
  split <;> rfl

/-- The steps of `CreateHttpRequest`: a request with the URL and the verb
and nothing else, then the content with its type, then the authorization,
then the four telemetry headers. -/
theorem CreateHttpRequest_steps (E : Engine) (Url : String) (Verb : EXsollaLoginRequestVerb)
    (Content AuthToken : String) :
    ∃ r2 : FHttpRequest, r2.Headers = [] ∧ r2.Content = "" ∧
      r2.URL = Url ++ ((if FString.Contains Url '?' then "&" else "?") ++ "engine=ue4&engine_v="
        ++ E.ENGINE_VERSION_STRING ++ "&sdk=login&sdk_v=" ++ E.XSOLLA_LOGIN_VERSION) ∧
      CreateHttpRequest E Url Verb Content AuthToken =
        SetHeader (SetHeader (SetHeader (SetHeader
          (if !FString.IsEmpty AuthToken then
            SetHeader
              (if !FString.IsEmpty Content then
                { SetHeader r2 "Content-Type" "application/json" with Content := Content }
              else r2)
              "Authorization" ("Bearer " ++ AuthToken)
          else
            (if !FString.IsEmpty Content then
              { SetHeader r2 "Content-Type" "application/json" with Content := Content }
            else r2))
          "X-ENGINE" "UE4") "X-ENGINE-V" E.ENGINE_VERSION_STRING) "X-SDK" "LOGIN")
          "X-SDK-V" E.XSOLLA_LOGIN_VERSION := by
  cases Verb <;> exact ⟨_, rfl, rfl, rfl, rfl⟩

/-- C22: the request built by `CreateHttpRequest` carries, in this order,
`Content-Type: application/json` if and only if the content is not empty,
`Authorization: Bearer` with the token if and only if the token is not
empty, and the four headers `X-ENGINE`, `X-ENGINE-V`, `X-SDK` and `X-SDK-V`,
and no other header; its content is the content given, which is set if and
only if it is not empty. -/
theorem C22_request_headers (E : Engine) (Url : String) (Verb : EXsollaLoginRequestVerb)
    (Content AuthToken : String) :
    (CreateHttpRequest E Url Verb Content AuthToken).Headers =
      (if Content = "" then [] else [("Content-Type", "application/json")]) ++
      (if AuthToken = "" then [] else [("Authorization", "Bearer " ++ AuthToken)]) ++
      [("X-ENGINE", "UE4"), ("X-ENGINE-V", E.ENGINE_VERSION_STRING), ("X-SDK", "LOGIN"),
        ("X-SDK-V", E.XSOLLA_LOGIN_VERSION)] ∧
    (CreateHttpRequest E Url Verb Content AuthToken).Content = Content := by
  have hCT : FString.Equals "Content-Type" "Authorization" = false := by decide
  obtain ⟨r2, h2H, h2C, -, hsteps⟩ := CreateHttpRequest_steps E Url Verb Content AuthToken
  have h3 : ∀ r3 : FHttpRequest,
      r3 = (if !FString.IsEmpty Content then
        { SetHeader r2 "Content-Type" "application/json" with Content := Content } else r2) →
      r3.Headers = (if Content = "" then [] else [("Content-Type", "application/json")]) ∧
      r3.Content = Content := by
    intro r3 hr3
    by_cases hC : Content = ""
    · have hCe : FString.IsEmpty Content = true := (FString.IsEmpty_iff _).2 hC
      simp only [hr3, hCe, Bool.not_true, Bool.false_eq_true, if_false, h2H, h2C, if_pos hC]
      exact ⟨trivial, hC.symm⟩
    · have hCe : FString.IsEmpty Content = false := (FString.IsEmpty_false_iff _).2 hC
      simp only [hr3, hCe, Bool.not_false, if_true, if_neg hC]
      rw [SetHeader_Headers_new r2 _ _ (by rw [h2H]; rfl), h2H]
      exact ⟨rfl, trivial⟩
  have h4 : ∀ r3 r4 : FHttpRequest,
      r3 = (if !FString.IsEmpty Content then
        { SetHeader r2 "Content-Type" "application/json" with Content := Content } else r2) →
      r4 = (if !FString.IsEmpty AuthToken then
        SetHeader r3 "Authorization" ("Bearer " ++ AuthToken) else r3) →
      r4.Headers = (if Content = "" then [] else [("Content-Type", "application/json")]) ++
        (if AuthToken = "" then [] else [("Authorization", "Bearer " ++ AuthToken)]) ∧
      r4.Content = Content := by
    intro r3 r4 hr3 hr4
    have h3' := h3 r3 hr3
    by_cases hA : AuthToken = ""
    · have hAe : FString.IsEmpty AuthToken = true := (FString.IsEmpty_iff _).2 hA
      simp only [hr4, hAe, Bool.not_true, Bool.false_eq_true, if_false, if_pos hA,
        List.append_nil]
      exact h3'
    · have hAe : FString.IsEmpty AuthToken = false := (FString.IsEmpty_false_iff _).2 hA
      simp only [hr4, hAe, Bool.not_false, if_true, if_neg hA, SetHeader_Content]
      refine ⟨?_, h3'.2⟩
      rw [SetHeader_Headers_new r3 _ _ (by
        rw [h3'.1]
        split
        · rfl
        · simp only [List.any_cons, List.any_nil, hCT, Bool.or_false]), h3'.1]
  have h4' := h4 _ _ rfl rfl
  have hmem : ∀ p ∈ (if !FString.IsEmpty AuthToken then
        SetHeader (if !FString.IsEmpty Content then
          { SetHeader r2 "Content-Type" "application/json" with Content := Content } else r2)
          "Authorization" ("Bearer " ++ AuthToken)
        else (if !FString.IsEmpty Content then
          { SetHeader r2 "Content-Type" "application/json" with Content := Content }
          else r2)).Headers,
      p.1 = "Content-Type" ∨ p.1 = "Authorization" := by
    intro p hp
    rw [h4'.1] at hp
    rcases List.mem_append.1 hp with hp | hp
    · split at hp
      · cases hp
      · left; rw [List.mem_singleton.1 hp]
    · split at hp
      · cases hp
      · right; rw [List.mem_singleton.1 hp]
  have ht := SetHeader_telemetry _ E.ENGINE_VERSION_STRING E.XSOLLA_LOGIN_VERSION hmem
  rw [hsteps, ht.1, ht.2, h4'.1]
  exact ⟨rfl, h4'.2⟩

/-- The headers on the sample engine: a POST request with content and token,
and a GET request with neither. -/
theorem CreateHttpRequest_headers_sample :
    (CreateHttpRequest SampleEngine "https://login.xsolla.com/api/users/me"
      EXsollaLoginRequestVerb.POST "body" "tok").Headers =
      [("Content-Type", "application/json"), ("Authorization", "Bearer tok"),
        ("X-ENGINE", "UE4"), ("X-ENGINE-V", "4.24.3"), ("X-SDK", "LOGIN"),
        ("X-SDK-V", "0.1.2")] ∧
    (CreateHttpRequest SampleEngine "https://login.xsolla.com/api/users/me").Headers =
      [("X-ENGINE", "UE4"), ("X-ENGINE-V", "4.24.3"), ("X-SDK", "LOGIN"),
        ("X-SDK-V", "0.1.2")] := by
  decide

/-- C23: the URL of the request built by `CreateHttpRequest` is the URL
given, then `&` if that URL holds a `?` and `?` if not, then
`engine=ue4&engine_v=`, the engine version, `&sdk=login&sdk_v=` and the
version of the plugin; so the URL given is the start of the result, and,
the versions holding no `?`, a URL without `?` ends up with exactly one. -/
theorem C23_request_url (E : Engine) (Url : String) (Verb : EXsollaLoginRequestVerb)
    (Content AuthToken : String)
    (hVersions : '?' ∉ E.ENGINE_VERSION_STRING.data ∧ '?' ∉ E.XSOLLA_LOGIN_VERSION.data) :
    (CreateHttpRequest E Url Verb Content AuthToken).URL =
      Url ++ (if '?' ∈ Url.data then "&" else "?") ++ "engine=ue4&engine_v=" ++
        E.ENGINE_VERSION_STRING ++ "&sdk=login&sdk_v=" ++ E.XSOLLA_LOGIN_VERSION ∧
    (∃ Tail : String, (CreateHttpRequest E Url Verb Content AuthToken).URL = Url ++ Tail) ∧
    ('?' ∉ Url.data →
      (CreateHttpRequest E Url Verb Content AuthToken).URL.data.count '?' = 1) := by
  obtain ⟨r2, -, -, h2U, hsteps⟩ := CreateHttpRequest_steps E Url Verb Content AuthToken
  have hURL : (CreateHttpRequest E Url Verb Content AuthToken).URL =
      Url ++ ((if FString.Contains Url '?' then "&" else "?") ++ "engine=ue4&engine_v="
        ++ E.ENGINE_VERSION_STRING ++ "&sdk=login&sdk_v=" ++ E.XSOLLA_LOGIN_VERSION) := by
    rw [hsteps]
    simp only [SetHeader_URL]
    split
    · rw [SetHeader_URL]
      split <;> exact h2U
    · split <;> exact h2U
  have hContains : FString.Contains Url '?' = true ↔ '?' ∈ Url.data := by
    simp [FString.Contains]
  refine ⟨?_, ⟨_, hURL⟩, ?_⟩
  · rw [hURL]
    by_cases hq : '?' ∈ Url.data
    · simp only [hContains.2 hq, if_true, if_pos hq, String.append_assoc]
    · have hc : FString.Contains Url '?' = false := by
        cases h : FString.Contains Url '?'
        · rfl
        · exact absurd (hContains.1 h) hq
      simp only [hc, Bool.false_eq_true, if_false, if_neg hq, String.append_assoc]
  · intro hq
    have hc : FString.Contains Url '?' = false := by
      cases h : FString.Contains Url '?'
      · rfl
      · exact absurd (hContains.1 h) hq
    rw [hURL]
    simp only [hc, Bool.false_eq_true, if_false, String.data_append, List.count_append]
    have h1 : ("?" : String).data.count '?' = 1 := by decide
    have h2 : ("engine=ue4&engine_v=" : String).data.count '?' = 0 := by decide
    have h3 : ("&sdk=login&sdk_v=" : String).data.count '?' = 0 := by decide
    rw [h1, h2, h3, List.count_eq_zero.2 hq, List.count_eq_zero.2 hVersions.1,
      List.count_eq_zero.2 hVersions.2]

/-- C23 on the sample engine: a URL without a query and a URL with one. -/
theorem C23_request_url_witness :
    (CreateHttpRequest SampleEngine "https://login.xsolla.com/api/users/me").URL =
      "https://login.xsolla.com/api/users/me?engine=ue4&engine_v=4.24.3&sdk=login&sdk_v=0.1.2" ∧
    (CreateHttpRequest SampleEngine
      "https://login.xsolla.com/api/login?projectId=login-id").URL =
      "https://login.xsolla.com/api/login?projectId=login-id&engine=ue4&engine_v=4.24.3&sdk=login&sdk_v=0.1.2" :=
  ⟨(C23_request_url SampleEngine "https://login.xsolla.com/api/users/me"
      EXsollaLoginRequestVerb.GET "" "" (by decide)).1.trans (by decide),
    (C23_request_url SampleEngine "https://login.xsolla.com/api/login?projectId=login-id"
      EXsollaLoginRequestVerb.GET "" "" (by decide)).1.trans (by decide)⟩

/-- C21: the result of `EncodeFormData` is not always the `&`-joined text of
the pairs kept. With an empty first value the text of the next pair is
appended after a `&`, so the result starts with `&`: for the pairs
`client_id` (empty) and `grant_type` = `refresh_token`, and for the content
of the code exchange request of a project without a client identifier. -/
theorem C21_form_data_starts_with_ampersand :
    EncodeFormData SampleEngine
        [("client_id", FJsonValue.string ""), ("grant_type", FJsonValue.string "refresh_token")] =
      "&grant_type=refresh_token" ∧
    SampleNoClientEngine.Settings.ClientID = "" ∧
    (ExchangeAuthenticationCodeToTokenRequest SampleNoClientEngine "abc123" 1 2).Content =
      "&grant_type=authorization_code&code=abc123&redirect_uri=https://login.xsolla.com/api/blank" ∧
    (ExchangeAuthenticationCodeToTokenRequest SampleEngine "abc123" 1 2).Content =
      "client_id=57&grant_type=authorization_code&code=abc123&redirect_uri=https://login.xsolla.com/api/blank" := by
  decide

/-! ## Properties of the state across completion handlers -/

/-- C24: a completion handler that invokes the error delegate leaves the
whole subsystem, and so the login record, the user attributes, the pending
social URL and the persisted record, as it was before the handler ran. -/
theorem C24_error_leaves_state (E : Engine) (s : UXsollaLoginSubsystem) (h : Completion)
    (HttpResponse : Option FHttpResponse) (bSucceeded : Bool)
    (SuccessCallback ErrorCallback Callback : Delegate) (Code Description : String)
    (hError : Call.Error Callback Code Description ∈
      (Complete E s h HttpResponse bSucceeded SuccessCallback ErrorCallback).2) :
    (Complete E s h HttpResponse bSucceeded SuccessCallback ErrorCallback).1 = s ∧
    (Complete E s h HttpResponse bSucceeded SuccessCallback ErrorCallback).1.LoginData =
      s.LoginData ∧
    (Complete E s h HttpResponse bSucceeded SuccessCallback ErrorCallback).1.UserAttributes =
      s.UserAttributes ∧
    (Complete E s h HttpResponse bSucceeded SuccessCallback
      ErrorCallback).1.PendingSocialAuthenticationUrl = s.PendingSocialAuthenticationUrl ∧
    (Complete E s h HttpResponse bSucceeded SuccessCallback ErrorCallback).1.SaveSlot =
      s.SaveSlot := by
  have hs : (Complete E s h HttpResponse bSucceeded SuccessCallback ErrorCallback).1 = s := by
    rcases HandleRequestError_cases E HttpResponse bSucceeded ErrorCallback with
      ⟨c, d, hc⟩ | ⟨hc, -, -⟩
    · cases h <;>
        simp [Complete, Default_HttpRequestComplete, UserLogin_HttpRequestComplete,
          UserLoginOAuth_HttpRequestComplete, HandleOAuthTokenRequest,
          TokenVerify_HttpRequestComplete, SocialAuthUrl_HttpRequestComplete,
          CrossAuth_HttpRequestComplete, UpdateUserAttributes_HttpRequestComplete,
          AccountLinkingCode_HttpRequestComplete, AuthConsoleAccountUser_HttpRequestComplete,
          RefreshTokenOAuth_HttpRequestComplete, SessionTicketOAuth_HttpRequestComplete, hc]
    · revert hError
      cases h <;>
        simp only [Complete, Default_HttpRequestComplete, UserLogin_HttpRequestComplete,
          UserLoginOAuth_HttpRequestComplete, HandleOAuthTokenRequest,
          TokenVerify_HttpRequestComplete, SocialAuthUrl_HttpRequestComplete,
          CrossAuth_HttpRequestComplete, UpdateUserAttributes_HttpRequestComplete,
          AccountLinkingCode_HttpRequestComplete, AuthConsoleAccountUser_HttpRequestComplete,
          RefreshTokenOAuth_HttpRequestComplete, SessionTicketOAuth_HttpRequestComplete, hc,
          ExchangeAuthenticationCodeToToken, List.nil_append] <;>
        (repeat' split) <;> intro hE <;>
        first
          | rfl
          | (simp at hE)
  rw [hs]
  exact ⟨rfl, rfl, rfl, rfl, rfl⟩

/-- C24 on the sample engine: the token validation handler on a failed
transfer. -/
theorem C24_error_leaves_state_witness :
    (Complete SampleEngine SampleSubsystem Completion.TokenVerify none false 1 2).2 =
      [Call.Error 2 "204" "No response"] ∧
    (Complete SampleEngine SampleSubsystem Completion.TokenVerify none false 1 2).1 =
      SampleSubsystem :=
  ⟨by decide,
    (C24_error_leaves_state SampleEngine SampleSubsystem Completion.TokenVerify none false 1 2 2
      "204" "No response" (by decide)).1⟩

/-- C25, as stated, fails: after a successful token validation of the JWT
`old.jwt.token`, `SetToken` with another token, the legacy login handler
with the token `abc.def.ghi`, and the initialization with a launcher token
over the persisted record each replace the JWT and leave the verified flag
set. -/
theorem C25_verified_survives_new_token :
    (Complete SampleEngine SampleSubsystem Completion.TokenVerify (some ⟨200, "OK"⟩) true
      1 2).1.LoginData.AuthToken =
      { JWT := "old.jwt.token", RefreshToken := "old-refresh", bIsVerified := true } ∧
    (SetToken (Complete SampleEngine SampleSubsystem Completion.TokenVerify
      (some ⟨200, "OK"⟩) true 1 2).1 "another.jwt.token").LoginData.AuthToken =
      { JWT := "another.jwt.token", RefreshToken := "old-refresh", bIsVerified := true } ∧
    (Complete SampleEngine (Complete SampleEngine SampleSubsystem Completion.TokenVerify
        (some ⟨200, "OK"⟩) true 1 2).1 Completion.UserLogin
      (some ⟨200, "\x7b\"login_url\":\"https://game.example/cb?remember_me=false&token=abc.def.ghi&lang=en\"\x7d"⟩)
      true 1 2).1.LoginData.AuthToken =
      { JWT := "abc.def.ghi", RefreshToken := "old-refresh", bIsVerified := true } ∧
    (Initialize_Collection SampleLauncherEngine (Complete SampleEngine SampleSubsystem
      Completion.TokenVerify (some ⟨200, "OK"⟩) true 1 2).1).LoginData.AuthToken =
      { JWT := "launcher.jwt.token", RefreshToken := "old-refresh", bIsVerified := true } := by
  refine ⟨by decide, by decide, by decide, by decide⟩

/-- The token validation handler follows the response classifier and not the
status: for the status 401 with an error object of empty description
`HandleRequestError` returns false, so the handler sets and saves the
verified flag and invokes the success delegate. -/
theorem TokenVerify_follows_classifier :
    SampleEngine.IsOk 401 = false ∧
    HandleRequestError SampleEngine
      (some ⟨401, "\x7b\"error\":\x7b\"code\":\"003-003\",\"description\":\"\"\x7d\x7d"⟩)
      true 2 = (false, []) ∧
    Complete SampleEngine SampleSubsystem Completion.TokenVerify
      (some ⟨401, "\x7b\"error\":\x7b\"code\":\"003-003\",\"description\":\"\"\x7d\x7d"⟩)
      true 1 2 =
      ({ SampleSubsystem with
          LoginData := { SampleLoginData with
            AuthToken := { SampleLoginData.AuthToken with bIsVerified := true } },
          SaveSlot := { SampleLoginData with
            AuthToken := { SampleLoginData.AuthToken with bIsVerified := true } } },
        [Call.Success 1 (Payload.LoginData { SampleLoginData with
          AuthToken := { SampleLoginData.AuthToken with bIsVerified := true } })]) := by
  decide

/-- C25, amended: a set verified flag does not tell that the current JWT
was validated. Every step that replaces the JWT leaves the flag exactly as
it was before the step: `SetToken`, the launcher override of `Initialize`,
and every completion handler other than the one of the token validation,
among them the login, cross authentication, platform account and OAuth2
token handlers. After the initialization of the subsystem the flag is the
one of the persisted record that was loaded. The token validation handler
leaves the JWT as it was: when `HandleRequestError` returns false it sets
the flag and hands the record to the success delegate, and when
`HandleRequestError` returns true it leaves the subsystem as it was.
`LaunchSocialAuthentication`, `DropLoginData`, and `AuthenticateUser` when
the platform subsystem is inactive, clear the flag with the rest of the
record. -/
theorem C25_verified_flag_follows_record (E : Engine) (s : UXsollaLoginSubsystem)
    (Token InProjectId InLoginId Username Password SocialAuthenticationUrl : String)
    (bRememberMe ClearCache : Bool) (h : Completion)
    (HttpResponse : Option FHttpResponse) (bSucceeded : Bool)
    (SuccessCallback ErrorCallback : Delegate) :
    ((SetToken s Token).LoginData.AuthToken.JWT = Token ∧
      (SetToken s Token).LoginData.AuthToken.bIsVerified = s.LoginData.AuthToken.bIsVerified) ∧
    (Initialize E s InProjectId InLoginId).LoginData.AuthToken.bIsVerified =
      s.LoginData.AuthToken.bIsVerified ∧
    (Initialize_Collection E s).LoginData.AuthToken.bIsVerified =
      s.SaveSlot.AuthToken.bIsVerified ∧
    (match h with
      | Completion.TokenVerify =>
        (Complete E s h HttpResponse bSucceeded SuccessCallback
          ErrorCallback).1.LoginData.AuthToken.JWT = s.LoginData.AuthToken.JWT ∧
        (((HandleRequestError E HttpResponse bSucceeded ErrorCallback).1 = false ∧
          (Complete E s h HttpResponse bSucceeded SuccessCallback
            ErrorCallback).1.LoginData.AuthToken.bIsVerified = true ∧
          (Complete E s h HttpResponse bSucceeded SuccessCallback ErrorCallback).2 =
            [Call.Success SuccessCallback (Payload.LoginData
              (Complete E s h HttpResponse bSucceeded SuccessCallback
                ErrorCallback).1.LoginData)]) ∨
          ((HandleRequestError E HttpResponse bSucceeded ErrorCallback).1 = true ∧
            (Complete E s h HttpResponse bSucceeded SuccessCallback ErrorCallback).1 = s ∧
            (Complete E s h HttpResponse bSucceeded SuccessCallback ErrorCallback).2 =
              (HandleRequestError E HttpResponse bSucceeded ErrorCallback).2))
      | _ =>
        (Complete E s h HttpResponse bSucceeded SuccessCallback
          ErrorCallback).1.LoginData.AuthToken.bIsVerified =
          s.LoginData.AuthToken.bIsVerified) ∧
    (LaunchSocialAuthentication s SocialAuthenticationUrl
      bRememberMe).LoginData.AuthToken.bIsVerified = false ∧
    (DropLoginData s ClearCache).LoginData.AuthToken.bIsVerified = false ∧
    (AuthenticateUser E s Username Password SuccessCallback ErrorCallback
      bRememberMe).1.LoginData.AuthToken.bIsVerified =
      (if E.IsSteamEnabled then s.LoginData.AuthToken.bIsVerified else false) := by
  refine ⟨?_, ?_, ?_, ?_, ?_, ?_, ?_⟩
  · simp only [SetToken, SaveData_eq, SetJWT, and_self]
  · simp only [Initialize, SetJWT]
    split <;> rfl
  · simp only [Initialize_Collection, Initialize, SetJWT, LoadSavedData, UXsollaLoginSave.Load]
    split <;> rfl
  · rcases HandleRequestError_cases E HttpResponse bSucceeded ErrorCallback with
      ⟨c, d, hc⟩ | ⟨hc, -, -⟩
    · cases h <;>
        simp [Complete, Default_HttpRequestComplete, UserLogin_HttpRequestComplete,
          UserLoginOAuth_HttpRequestComplete, HandleOAuthTokenRequest,
          TokenVerify_HttpRequestComplete, SocialAuthUrl_HttpRequestComplete,
          CrossAuth_HttpRequestComplete, UpdateUserAttributes_HttpRequestComplete,
          AccountLinkingCode_HttpRequestComplete, AuthConsoleAccountUser_HttpRequestComplete,
          RefreshTokenOAuth_HttpRequestComplete, SessionTicketOAuth_HttpRequestComplete, hc]
    · cases h <;>
        simp only [Complete, Default_HttpRequestComplete, UserLogin_HttpRequestComplete,
          UserLoginOAuth_HttpRequestComplete, HandleOAuthTokenRequest,
          TokenVerify_HttpRequestComplete, SocialAuthUrl_HttpRequestComplete,
          CrossAuth_HttpRequestComplete, UpdateUserAttributes_HttpRequestComplete,
          AccountLinkingCode_HttpRequestComplete, AuthConsoleAccountUser_HttpRequestComplete,
          RefreshTokenOAuth_HttpRequestComplete, SessionTicketOAuth_HttpRequestComplete, hc,
          ExchangeAuthenticationCodeToToken, List.nil_append, SaveData_eq, SetJWT] <;>
        (repeat' split) <;> simp
  · simp only [LaunchSocialAuthentication, SaveData_eq]
  · unfold DropLoginData
    cases ClearCache <;> rfl
  · cases hS : E.IsSteamEnabled
    · simp only [AuthenticateUser, hS, Bool.false_eq_true, if_false, SaveData_eq]
      split <;> rfl
    · simp only [AuthenticateUser, hS, if_true]

end XsollaLogin
